import Mathlib

/-!
Shallow embedding of the Edu_testing backend (FastAPI + MongoDB CRUD API over
notes, papers and syllabi, with a JWT-cookie auth gate) and verification of
its specification claims.

Modelling conventions:
* JSON / BSON values are `JVal` (strings, lists of strings, datetimes, null);
  documents and request bodies are association lists `Doc`.
* Datetimes are natural numbers; `datetime.utcnow()` is an explicit `now`
  parameter; `datetime.isoformat` (external stdlib) is modelled as an
  injective rendering of the timestamp to a string.
* `jwt.decode` (external `jose` library, configured secret and algorithm) is
  modelled as an arbitrary function `decode : String → Option Claims`;
  `none` stands for any `JWTError` (malformed, expired, bad signature, wrong
  algorithm).  Real JWT decoding always rejects the empty string, which some
  theorems take as a hypothesis.
* The MongoDB store (out-of-scope collaborator) is modelled per the spec's
  interface: collections are lists of documents; the `$regex`/`"i"` filter is
  a case-insensitive substring filter and `$in` on an array field is exact
  element membership; `sort`/`skip`/`limit` apply in that order server-side.
* `HTTPException` and Pydantic/FastAPI validation failures (status 422) are
  the error side of `Except HErr`.
-/

/-- JSON/BSON values appearing in this API: strings, string arrays,
datetimes and null. -/
inductive JVal where
  | str (s : String)
  | arr (xs : List String)
  | time (t : Nat)
  | null
deriving Repr, DecidableEq

/-- A document / JSON object: an association list from field names to values
(keys unique, order preserved, as in a Python dict). -/
abbrev Doc := List (String × JVal)

/-- Dictionary lookup `d.get(k)`. -/
def getField (d : Doc) (k : String) : Option JVal :=
  (d.find? (fun p => p.1 == k)).map (fun p => p.2)

/-- Key removal, as performed by `d.pop(k)`. -/
def removeField (d : Doc) (k : String) : Doc :=
  d.filter (fun p => p.1 != k)

/-- Dictionary assignment `d[k] = v`: replaces the value in place when the
key is present, otherwise appends the new key at the end. -/
def setField (d : Doc) (k : String) (v : JVal) : Doc :=
  if (d.find? (fun p => p.1 == k)).isSome then
    d.map (fun p => if p.1 == k then (k, v) else p)
  else
    d ++ [(k, v)]

/-- Sequential assignment of every pair of `u` into `d`, as performed by
`d.update(u)`. -/
def setFields (d : Doc) : Doc → Doc
  | [] => d
  | (k, v) :: rest => setFields (setField d k v) rest

/-- Rendering of a timestamp to its ISO-8601 string, standing in for the
external `datetime.isoformat`; modelled as the canonical injective rendering
of the modelled timestamp. -/
def isoformat (t : Nat) : String :=
  toString t

/-- An HTTP error response: status code and detail message, as raised by
`HTTPException(status_code=..., detail=...)` or by FastAPI validation. -/
structure HErr where
  status : Nat
  detail : String
deriving Repr, DecidableEq

/-- Decoded JWT claims: subject identifier and the `is_admin` claim, each
possibly absent. -/
structure Claims where
  sub : Option String
  is_admin : Option Bool
deriving Repr, DecidableEq

/-- Python truthiness of `payload.get("is_admin")`. -/
def Claims.adminTruthy (c : Claims) : Bool :=
  c.is_admin.getD false

/-- An inbound HTTP request, reduced to its cookie store. -/
structure Request where
  cookies : List (String × String)
deriving Repr, DecidableEq

/-- Cookie lookup `request.cookies.get(name)`. -/
def Request.cookie (r : Request) (name : String) : Option String :=
  r.cookies.lookup name

/-- Embedding of `auth_utils.verify_admin`: requires the `token` cookie
(present and non-empty, per `if not token`), decodes it, then requires a
truthy `is_admin` claim; returns the decoded claims.  The 403 raised inside
the `try` block is an `HTTPException`, not a `JWTError`, so it propagates
past the `except` clause. -/
def verify_admin (decode : String → Option Claims) (req : Request) :
    Except HErr Claims :=
  match req.cookie "token" with
  | none => .error ⟨401, "Missing authentication token"⟩
  | some tok =>
    if tok = "" then .error ⟨401, "Missing authentication token"⟩
    else
      match decode tok with
      | none => .error ⟨401, "Invalid token"⟩
      | some payload =>
        if payload.adminTruthy then .ok payload
        else .error ⟨403, "Admin access required"⟩

/-- Embedding of `auth_utils.verify_token`: requires the `token` cookie
(present and non-empty) and decodes it; returns the decoded claims. -/
def verify_token (decode : String → Option Claims) (req : Request) :
    Except HErr Claims :=
  match req.cookie "token" with
  | none => .error ⟨401, "Missing authentication token"⟩
  | some tok =>
    if tok = "" then .error ⟨401, "Missing authentication token"⟩
    else
      match decode tok with
      | none => .error ⟨401, "Invalid token"⟩
      | some payload => .ok payload

/-! Concrete auth fixtures used by witnesses and existential parts. -/

/-- Claims of an administrator session. -/
def adminClaims : Claims := ⟨some "alice", some true⟩

/-- Claims of a valid non-administrator session. -/
def userClaims : Claims := ⟨some "bob", some false⟩

/-- A concrete decoder: `tokA` is a valid admin token, `tokU` a valid
non-admin token, everything else (including the empty string) is invalid. -/
def decode0 : String → Option Claims :=
  fun t => if t = "tokA" then some adminClaims
    else if t = "tokU" then some userClaims
    else none

/-- A request carrying the valid admin token cookie. -/
def reqAdmin : Request := ⟨[("token", "tokA")]⟩

/-- A request carrying a valid but non-admin token cookie. -/
def reqUser : Request := ⟨[("token", "tokU")]⟩

/-- A request with no cookies at all. -/
def reqAnon : Request := ⟨[]⟩

/-! Document store model (MongoDB collaborator, per the spec's interface). -/

/-- Lookup `collection.find_one({"_id": i})`: first document whose `_id`
equals the given string. -/
def findOne (c : List Doc) (i : String) : Option Doc :=
  c.find? (fun d => getField d "_id" == some (.str i))

/-- Removal `collection.delete_one({"_id": i})`: removes the first matching
document and reports the deleted count (0 or 1). -/
def deleteOne (c : List Doc) (i : String) : List Doc × Nat :=
  match c with
  | [] => ([], 0)
  | d :: rest =>
    if getField d "_id" == some (.str i) then (rest, 1)
    else
      let r := deleteOne rest i
      (d :: r.1, r.2)

/-- Update `collection.update_one({"_id": i}, {"$set": u})`: merges the
fields of `u` into the first matching document. -/
def updateOne (c : List Doc) (i : String) (u : Doc) : List Doc :=
  match c with
  | [] => []
  | d :: rest =>
    if getField d "_id" == some (.str i) then setFields d u :: rest
    else d :: updateOne rest i u

/-- Sort key for `sort("created_at", -1)`: the stored timestamp, with a
missing or non-datetime value ordered below every timestamp (as Mongo orders
null/missing below numbers and dates). -/
def createdKey (d : Doc) : Int :=
  match getField d "created_at" with
  | some (.time t) => (t : Int)
  | _ => -1

/-- Descending-`created_at` order between documents. -/
def docGE (a b : Doc) : Prop := createdKey b ≤ createdKey a

instance : DecidableRel docGE := fun _ _ => Int.decLe _ _

instance : IsTotal Doc docGE := ⟨fun a b => Int.le_total (createdKey b) (createdKey a)⟩

instance : IsTrans Doc docGE := ⟨fun _ _ _ h1 h2 => le_trans h2 h1⟩

/-- Server-side `sort("created_at", -1)` over a result set. -/
def sortByCreatedDesc (c : List Doc) : List Doc :=
  List.insertionSort docGE c

/-- Containment of one character list in another as a contiguous run. -/
def charsContain : List Char → List Char → Bool
  | [], needle => needle.isEmpty
  | c :: rest, needle => List.isPrefixOf needle (c :: rest) || charsContain rest needle

/-- Case-insensitive substring test. -/
def ciContains (hay q : String) : Bool :=
  charsContain (hay.toList.map Char.toLower) (q.toList.map Char.toLower)

/-- Modelled from the spec: the store's `{"$regex": q, "$options": "i"}`
filter clause is a case-insensitive substring filter over string-valued
fields (a missing, null or non-string field never matches). -/
def regexClause (v : Option JVal) (q : String) : Bool :=
  match v with
  | some (.str s) => ciContains s q
  | _ => false

/-- Modelled from the spec: the store's `{"$in": [q]}` filter clause is
exact element membership in an array-valued field. -/
def inClause (v : Option JVal) (q : String) : Bool :=
  match v with
  | some (.arr xs) => xs.contains q
  | _ => false

/-- The notes search filter: title or description as case-insensitive
substring, or tags by exact membership, combined by `$or`. -/
def matchesNote (q : String) (d : Doc) : Bool :=
  regexClause (getField d "title") q || regexClause (getField d "description") q ||
    inClause (getField d "tags") q

/-- The papers search filter: title or abstract as case-insensitive
substring, or authors/tags by exact membership, combined by `$or`. -/
def matchesPaper (q : String) (d : Doc) : Bool :=
  regexClause (getField d "title") q || regexClause (getField d "abstract") q ||
    inClause (getField d "authors") q || inClause (getField d "tags") q

/-- The syllabus search filter: title, course code, branch or description as
case-insensitive substring, or tags by exact membership, combined by
`$or`. -/
def matchesSyllabus (q : String) (d : Doc) : Bool :=
  regexClause (getField d "title") q || regexClause (getField d "course_code") q ||
    regexClause (getField d "branch") q || regexClause (getField d "description") q ||
    inClause (getField d "tags") q

/-! Output serialization, the loop body shared verbatim by every handler:
`doc["id"] = doc.pop("_id")` followed by
`doc[k] = doc.get(k, datetime.utcnow()).isoformat()` for both timestamps. -/

/-- Evaluation of `doc.get(k, datetime.utcnow()).isoformat()`: a stored
datetime is rendered to its ISO string, a missing value falls back to the
current time; a stored non-datetime value is left as is (Python would raise
there; well-formed documents never hit this case). -/
def isoTime (v : Option JVal) (now : Nat) : JVal :=
  match v with
  | some (.time t) => .str (isoformat t)
  | some w => w
  | none => .str (isoformat now)

/-- Output serialization of one stored document. -/
def renderDoc (now : Nat) (d : Doc) : Doc :=
  let idv := (getField d "_id").getD .null
  let d1 := setField (removeField d "_id") "id" idv
  let d2 := setField d1 "created_at" (isoTime (getField d1 "created_at") now)
  let d3 := setField d2 "updated_at" (isoTime (getField d2 "updated_at") now)
  d3

/-! Pydantic field validation, per the `Field(...)` bounds of the three
input schemas. -/

/-- Validation of a required string field with length bounds. -/
def parseStrReq (body : Doc) (k : String) (minLen maxLen : Nat) : Option String :=
  match getField body k with
  | some (.str s) => if minLen ≤ s.length && s.length ≤ maxLen then some s else none
  | _ => none

/-- Validation of an `Optional[str]` field with a maximum length; absent and
explicit null both yield `None`. -/
def parseStrOpt (body : Doc) (k : String) (maxLen : Nat) : Option (Option String) :=
  match getField body k with
  | none => some none
  | some .null => some none
  | some (.str s) => if s.length ≤ maxLen then some (some s) else none
  | _ => none

/-- Validation of an `Optional[List[str]]` field with `default_factory=list`:
absent yields the empty list, explicit null yields `None`. -/
def parseArrOpt (body : Doc) (k : String) : Option (Option (List String)) :=
  match getField body k with
  | none => some (some [])
  | some .null => some none
  | some (.arr xs) => some (some xs)
  | _ => none

/-- The model field names explicitly provided in the request body
(Pydantic's fields-set, driving `exclude_unset`). -/
def providedOf (body : Doc) (names : List String) : List String :=
  names.filter (fun k => (getField body k).isSome)

/-- Rendering of an optional string value into a document value. -/
def optStrVal : Option String → JVal
  | none => .null
  | some s => .str s

/-- Rendering of an optional string-list value into a document value. -/
def optArrVal : Option (List String) → JVal
  | none => .null
  | some xs => .arr xs

/-! Notes resource: input schema `NoteIn` and the five handlers of
`notes_routes.py`. -/

/-- Parsed `NoteIn` model: `title` required (1..255), `description` and
`content` optional with length caps, `tags` optional list defaulting to
empty; `fieldsSet` records which model fields the body provided. -/
structure NoteIn where
  title : String
  description : Option String
  content : Option String
  tags : Option (List String)
  fieldsSet : List String
deriving Repr, DecidableEq

/-- FastAPI/Pydantic validation of a request body against `NoteIn`;
`none` is a 422 validation failure. -/
def parseNoteIn (body : Doc) : Option NoteIn :=
  match parseStrReq body "title" 1 255, parseStrOpt body "description" 5000,
      parseStrOpt body "content" 50000, parseArrOpt body "tags" with
  | some t, some d, some c, some tg =>
    some ⟨t, d, c, tg, providedOf body ["title", "description", "content", "tags"]⟩
  | _, _, _, _ => none

/-- Serialization `payload.dict()` of a `NoteIn`. -/
def NoteIn.dict (p : NoteIn) : Doc :=
  [("title", .str p.title), ("description", optStrVal p.description),
   ("content", optStrVal p.content), ("tags", optArrVal p.tags)]

/-- Serialization `payload.dict(exclude_unset=True)`: only the fields the
request body explicitly provided. -/
def NoteIn.dictExcludeUnset (p : NoteIn) : Doc :=
  p.dict.filter (fun kv => p.fieldsSet.contains kv.1)

/-- Pagination echo block of list/search responses. -/
structure PageInfo where
  total : Nat
  skip : Int
  limit : Int
  returned : Nat
deriving Repr, DecidableEq

/-- Successful list response: `{success, data, pagination}`. -/
structure ListResp where
  data : List Doc
  pagination : PageInfo
deriving Repr, DecidableEq

/-- Successful search response: `{success, query, data, pagination}`. -/
structure SearchResp where
  query : String
  data : List Doc
  pagination : PageInfo
deriving Repr, DecidableEq

/-- Successful create response: `{success, message, data}`. -/
structure CreateResp where
  message : String
  data : Doc
deriving Repr, DecidableEq

/-- Embedding of `get_notes`: query validation (`skip ≥ 0`,
`1 ≤ limit ≤ MAX_PAGE_SIZE`), store-handle check, then total count plus the
page sorted by `created_at` descending, serialized. -/
def get_notes (dbSet : Bool) (notes : List Doc) (maxPage : Nat) (now : Nat)
    (skip limit : Int) : Except HErr ListResp :=
  if skip < 0 || limit < 1 || (maxPage : Int) < limit then
    .error ⟨422, "query validation error"⟩
  else if !dbSet then .error ⟨500, "Database not connected"⟩
  else
    let page := ((sortByCreatedDesc notes).drop skip.toNat).take limit.toNat
    let rendered := page.map (renderDoc now)
    .ok ⟨rendered, ⟨notes.length, skip, limit, rendered.length⟩⟩

/-- Embedding of `search_notes`: query validation (`q` non-empty, same
pagination bounds), store-handle check, then the `$or` filter over title,
description and tags, with the total counted over the filtered set. -/
def search_notes (dbSet : Bool) (notes : List Doc) (maxPage : Nat) (now : Nat)
    (q : String) (skip limit : Int) : Except HErr SearchResp :=
  if q.length < 1 || skip < 0 || limit < 1 || (maxPage : Int) < limit then
    .error ⟨422, "query validation error"⟩
  else if !dbSet then .error ⟨500, "Database not connected"⟩
  else
    let matched := notes.filter (matchesNote q)
    let page := ((sortByCreatedDesc matched).drop skip.toNat).take limit.toNat
    let rendered := page.map (renderDoc now)
    .ok ⟨q, rendered, ⟨matched.length, skip, limit, rendered.length⟩⟩

/-- Embedding of `create_note`: the `verify_admin` dependency runs first,
then body validation, then the handler: build the document from
`payload.dict()` plus `_id` (a fresh UUID, modelled as the `noteId`
parameter) and both timestamps, insert it, and answer with
`{"id": note_id, **doc}`. -/
def create_note (decode : String → Option Claims) (req : Request)
    (dbSet : Bool) (notes : List Doc) (body : Doc) (noteId : String)
    (now : Nat) : Except HErr CreateResp × List Doc :=
  match verify_admin decode req with
  | .error e => (.error e, notes)
  | .ok _ =>
    match parseNoteIn body with
    | none => (.error ⟨422, "body validation error"⟩, notes)
    | some payload =>
      if !dbSet then (.error ⟨500, "Database not connected"⟩, notes)
      else
        let doc := setFields payload.dict
          [("_id", .str noteId), ("created_at", .time now), ("updated_at", .time now)]
        (.ok ⟨"Note created successfully", ("id", .str noteId) :: doc⟩, notes ++ [doc])

/-- Embedding of `get_note`: store-handle check, `find_one` on `_id`,
404 when absent, otherwise the serialized document. -/
def get_note (dbSet : Bool) (notes : List Doc) (noteId : String) (now : Nat) :
    Except HErr Doc :=
  if !dbSet then .error ⟨500, "Database not connected"⟩
  else
    match findOne notes noteId with
    | none => .error ⟨404, "Note not found"⟩
    | some d => .ok (renderDoc now d)

/-- Embedding of `update_note`: admin dependency, body validation against
the full `NoteIn` schema, store-handle check, existence check, then
`update_one` with `payload.dict(exclude_unset=True)` plus a fresh
`updated_at`. -/
def update_note (decode : String → Option Claims) (req : Request)
    (dbSet : Bool) (notes : List Doc) (noteId : String) (body : Doc)
    (now : Nat) : Except HErr String × List Doc :=
  match verify_admin decode req with
  | .error e => (.error e, notes)
  | .ok _ =>
    match parseNoteIn body with
    | none => (.error ⟨422, "body validation error"⟩, notes)
    | some payload =>
      if !dbSet then (.error ⟨500, "Database not connected"⟩, notes)
      else
        match findOne notes noteId with
        | none => (.error ⟨404, "Note not found"⟩, notes)
        | some _ =>
          let upd := setField payload.dictExcludeUnset "updated_at" (.time now)
          (.ok "Note updated successfully", updateOne notes noteId upd)

/-- Embedding of `delete_note`: admin dependency, store-handle check, then
`delete_one`; 404 when the deleted count is zero. -/
def delete_note (decode : String → Option Claims) (req : Request)
    (dbSet : Bool) (notes : List Doc) (noteId : String) :
    Except HErr String × List Doc :=
  match verify_admin decode req with
  | .error e => (.error e, notes)
  | .ok _ =>
    if !dbSet then (.error ⟨500, "Database not connected"⟩, notes)
    else
      let r := deleteOne notes noteId
      if r.2 = 0 then (.error ⟨404, "Note not found"⟩, r.1)
      else (.ok "Note deleted successfully", r.1)

/-! Papers resource: input schema `PaperIn` and the five handlers of
`papers_routes.py`. -/

/-- Parsed `PaperIn` model: `title` required (1..255), `authors` optional
list, `abstract` (≤5000) and `file_url` (≤500) optional strings, `tags`
optional list. -/
structure PaperIn where
  title : String
  authors : Option (List String)
  abstract : Option String
  file_url : Option String
  tags : Option (List String)
  fieldsSet : List String
deriving Repr, DecidableEq

/-- FastAPI/Pydantic validation of a request body against `PaperIn`. -/
def parsePaperIn (body : Doc) : Option PaperIn :=
  match parseStrReq body "title" 1 255, parseArrOpt body "authors",
      parseStrOpt body "abstract" 5000, parseStrOpt body "file_url" 500,
      parseArrOpt body "tags" with
  | some t, some au, some ab, some fu, some tg =>
    some ⟨t, au, ab, fu, tg, providedOf body ["title", "authors", "abstract", "file_url", "tags"]⟩
  | _, _, _, _, _ => none

/-- Serialization `payload.dict()` of a `PaperIn`. -/
def PaperIn.dict (p : PaperIn) : Doc :=
  [("title", .str p.title), ("authors", optArrVal p.authors),
   ("abstract", optStrVal p.abstract), ("file_url", optStrVal p.file_url),
   ("tags", optArrVal p.tags)]

/-- Serialization `payload.dict(exclude_unset=True)` of a `PaperIn`. -/
def PaperIn.dictExcludeUnset (p : PaperIn) : Doc :=
  p.dict.filter (fun kv => p.fieldsSet.contains kv.1)

/-- Embedding of `get_papers`, identical in shape to `get_notes`. -/
def get_papers (dbSet : Bool) (papers : List Doc) (maxPage : Nat) (now : Nat)
    (skip limit : Int) : Except HErr ListResp :=
  if skip < 0 || limit < 1 || (maxPage : Int) < limit then
    .error ⟨422, "query validation error"⟩
  else if !dbSet then .error ⟨500, "Database not connected"⟩
  else
    let page := ((sortByCreatedDesc papers).drop skip.toNat).take limit.toNat
    let rendered := page.map (renderDoc now)
    .ok ⟨rendered, ⟨papers.length, skip, limit, rendered.length⟩⟩

/-- Embedding of `search_papers`: `$or` filter over title, abstract,
authors and tags. -/
def search_papers (dbSet : Bool) (papers : List Doc) (maxPage : Nat) (now : Nat)
    (q : String) (skip limit : Int) : Except HErr SearchResp :=
  if q.length < 1 || skip < 0 || limit < 1 || (maxPage : Int) < limit then
    .error ⟨422, "query validation error"⟩
  else if !dbSet then .error ⟨500, "Database not connected"⟩
  else
    let matched := papers.filter (matchesPaper q)
    let page := ((sortByCreatedDesc matched).drop skip.toNat).take limit.toNat
    let rendered := page.map (renderDoc now)
    .ok ⟨q, rendered, ⟨matched.length, skip, limit, rendered.length⟩⟩

/-- Embedding of `create_paper`, identical in shape to `create_note`. -/
def create_paper (decode : String → Option Claims) (req : Request)
    (dbSet : Bool) (papers : List Doc) (body : Doc) (paperId : String)
    (now : Nat) : Except HErr CreateResp × List Doc :=
  match verify_admin decode req with
  | .error e => (.error e, papers)
  | .ok _ =>
    match parsePaperIn body with
    | none => (.error ⟨422, "body validation error"⟩, papers)
    | some payload =>
      if !dbSet then (.error ⟨500, "Database not connected"⟩, papers)
      else
        let doc := setFields payload.dict
          [("_id", .str paperId), ("created_at", .time now), ("updated_at", .time now)]
        (.ok ⟨"Paper created successfully", ("id", .str paperId) :: doc⟩, papers ++ [doc])

/-- Embedding of `get_paper`. -/
def get_paper (dbSet : Bool) (papers : List Doc) (paperId : String) (now : Nat) :
    Except HErr Doc :=
  if !dbSet then .error ⟨500, "Database not connected"⟩
  else
    match findOne papers paperId with
    | none => .error ⟨404, "Paper not found"⟩
    | some d => .ok (renderDoc now d)

/-- Embedding of `update_paper`. -/
def update_paper (decode : String → Option Claims) (req : Request)
    (dbSet : Bool) (papers : List Doc) (paperId : String) (body : Doc)
    (now : Nat) : Except HErr String × List Doc :=
  match verify_admin decode req with
  | .error e => (.error e, papers)
  | .ok _ =>
    match parsePaperIn body with
    | none => (.error ⟨422, "body validation error"⟩, papers)
    | some payload =>
      if !dbSet then (.error ⟨500, "Database not connected"⟩, papers)
      else
        match findOne papers paperId with
        | none => (.error ⟨404, "Paper not found"⟩, papers)
        | some _ =>
          let upd := setField payload.dictExcludeUnset "updated_at" (.time now)
          (.ok "Paper updated successfully", updateOne papers paperId upd)

/-- Embedding of `delete_paper`. -/
def delete_paper (decode : String → Option Claims) (req : Request)
    (dbSet : Bool) (papers : List Doc) (paperId : String) :
    Except HErr String × List Doc :=
  match verify_admin decode req with
  | .error e => (.error e, papers)
  | .ok _ =>
    if !dbSet then (.error ⟨500, "Database not connected"⟩, papers)
    else
      let r := deleteOne papers paperId
      if r.2 = 0 then (.error ⟨404, "Paper not found"⟩, r.1)
      else (.ok "Paper deleted successfully", r.1)

/-! Syllabus resource: input schema `SyllabusIn` and the five handlers of
`syllabus_routes.py`. -/

/-- Parsed `SyllabusIn` model: `title` required (1..255), optional
`course_code` (≤20), `branch` (≤100), `year` (≤20), `description` (≤5000),
and optional `modules` and `tags` lists. -/
structure SyllabusIn where
  title : String
  course_code : Option String
  branch : Option String
  year : Option String
  description : Option String
  modules : Option (List String)
  tags : Option (List String)
  fieldsSet : List String
deriving Repr, DecidableEq

/-- FastAPI/Pydantic validation of a request body against `SyllabusIn`. -/
def parseSyllabusIn (body : Doc) : Option SyllabusIn :=
  match parseStrReq body "title" 1 255, parseStrOpt body "course_code" 20,
      parseStrOpt body "branch" 100, parseStrOpt body "year" 20,
      parseStrOpt body "description" 5000, parseArrOpt body "modules",
      parseArrOpt body "tags" with
  | some t, some cc, some br, some yr, some d, some md, some tg =>
    some ⟨t, cc, br, yr, d, md, tg,
      providedOf body ["title", "course_code", "branch", "year", "description", "modules", "tags"]⟩
  | _, _, _, _, _, _, _ => none

/-- Serialization `payload.dict()` of a `SyllabusIn`. -/
def SyllabusIn.dict (p : SyllabusIn) : Doc :=
  [("title", .str p.title), ("course_code", optStrVal p.course_code),
   ("branch", optStrVal p.branch), ("year", optStrVal p.year),
   ("description", optStrVal p.description), ("modules", optArrVal p.modules),
   ("tags", optArrVal p.tags)]

/-- Serialization `payload.dict(exclude_unset=True)` of a `SyllabusIn`. -/
def SyllabusIn.dictExcludeUnset (p : SyllabusIn) : Doc :=
  p.dict.filter (fun kv => p.fieldsSet.contains kv.1)

/-- Embedding of `get_syllabus` (the list endpoint). -/
def get_syllabus (dbSet : Bool) (syllabi : List Doc) (maxPage : Nat) (now : Nat)
    (skip limit : Int) : Except HErr ListResp :=
  if skip < 0 || limit < 1 || (maxPage : Int) < limit then
    .error ⟨422, "query validation error"⟩
  else if !dbSet then .error ⟨500, "Database not connected"⟩
  else
    let page := ((sortByCreatedDesc syllabi).drop skip.toNat).take limit.toNat
    let rendered := page.map (renderDoc now)
    .ok ⟨rendered, ⟨syllabi.length, skip, limit, rendered.length⟩⟩

/-- Embedding of `search_syllabus`: `$or` filter over title, course code,
branch, description and tags. -/
def search_syllabus (dbSet : Bool) (syllabi : List Doc) (maxPage : Nat) (now : Nat)
    (q : String) (skip limit : Int) : Except HErr SearchResp :=
  if q.length < 1 || skip < 0 || limit < 1 || (maxPage : Int) < limit then
    .error ⟨422, "query validation error"⟩
  else if !dbSet then .error ⟨500, "Database not connected"⟩
  else
    let matched := syllabi.filter (matchesSyllabus q)
    let page := ((sortByCreatedDesc matched).drop skip.toNat).take limit.toNat
    let rendered := page.map (renderDoc now)
    .ok ⟨q, rendered, ⟨matched.length, skip, limit, rendered.length⟩⟩

/-- Embedding of `create_syllabus`. -/
def create_syllabus (decode : String → Option Claims) (req : Request)
    (dbSet : Bool) (syllabi : List Doc) (body : Doc) (syllabusId : String)
    (now : Nat) : Except HErr CreateResp × List Doc :=
  match verify_admin decode req with
  | .error e => (.error e, syllabi)
  | .ok _ =>
    match parseSyllabusIn body with
    | none => (.error ⟨422, "body validation error"⟩, syllabi)
    | some payload =>
      if !dbSet then (.error ⟨500, "Database not connected"⟩, syllabi)
      else
        let doc := setFields payload.dict
          [("_id", .str syllabusId), ("created_at", .time now), ("updated_at", .time now)]
        (.ok ⟨"Syllabus created successfully", ("id", .str syllabusId) :: doc⟩, syllabi ++ [doc])

/-- Embedding of `get_one_syllabus`. -/
def get_one_syllabus (dbSet : Bool) (syllabi : List Doc) (syllabusId : String)
    (now : Nat) : Except HErr Doc :=
  if !dbSet then .error ⟨500, "Database not connected"⟩
  else
    match findOne syllabi syllabusId with
    | none => .error ⟨404, "Syllabus not found"⟩
    | some d => .ok (renderDoc now d)

/-- Embedding of `update_syllabus`. -/
def update_syllabus (decode : String → Option Claims) (req : Request)
    (dbSet : Bool) (syllabi : List Doc) (syllabusId : String) (body : Doc)
    (now : Nat) : Except HErr String × List Doc :=
  match verify_admin decode req with
  | .error e => (.error e, syllabi)
  | .ok _ =>
    match parseSyllabusIn body with
    | none => (.error ⟨422, "body validation error"⟩, syllabi)
    | some payload =>
      if !dbSet then (.error ⟨500, "Database not connected"⟩, syllabi)
      else
        match findOne syllabi syllabusId with
        | none => (.error ⟨404, "Syllabus not found"⟩, syllabi)
        | some _ =>
          let upd := setField payload.dictExcludeUnset "updated_at" (.time now)
          (.ok "Syllabus updated successfully", updateOne syllabi syllabusId upd)

/-- Embedding of `delete_syllabus`. -/
def delete_syllabus (decode : String → Option Claims) (req : Request)
    (dbSet : Bool) (syllabi : List Doc) (syllabusId : String) :
    Except HErr String × List Doc :=
  match verify_admin decode req with
  | .error e => (.error e, syllabi)
  | .ok _ =>
    if !dbSet then (.error ⟨500, "Database not connected"⟩, syllabi)
    else
      let r := deleteOne syllabi syllabusId
      if r.2 = 0 then (.error ⟨404, "Syllabus not found"⟩, r.1)
      else (.ok "Syllabus deleted successfully", r.1)

/-! Well-formedness of stored documents and shape of rendered records. -/

/-- A stored timestamp slot is usable by the serializer: absent (legacy
record) or an actual datetime. -/
def timeOK : Option JVal → Bool
  | none => true
  | some (.time _) => true
  | _ => false

/-- Well-formed stored document: a string `_id` and usable timestamp
slots (every document written by the create handlers satisfies this). -/
def wfDoc (d : Doc) : Prop :=
  (∃ s, getField d "_id" = some (.str s)) ∧
    timeOK (getField d "created_at") = true ∧
    timeOK (getField d "updated_at") = true

/-- Shape of a correctly serialized record: the identifier appears under
`id` and not under `_id`, and both timestamps are strings. -/
def renderedOK (r : Doc) : Prop :=
  getField r "_id" = none ∧
    (∃ s, getField r "id" = some (.str s)) ∧
    (∃ s, getField r "created_at" = some (.str s)) ∧
    (∃ s, getField r "updated_at" = some (.str s))

/-- Number of documents of a collection carrying a given `_id` (the store's
unique index on `_id` keeps this at most 1). -/
def idCount (c : List Doc) (i : String) : Nat :=
  (c.filter (fun d => getField d "_id" == some (.str i))).length

/-! Concrete store fixtures used by witnesses and counterexamples. -/

/-- A minimal valid create/update request body. -/
def noteBody0 : Doc := [("title", JVal.str "Algebra")]

/-- The document stored by `create_note` for `noteBody0` at time 5 with
identifier `n1`. -/
def noteDoc0 : Doc :=
  [("title", JVal.str "Algebra"), ("description", JVal.null),
   ("content", JVal.null), ("tags", JVal.arr []),
   ("_id", JVal.str "n1"), ("created_at", JVal.time 5),
   ("updated_at", JVal.time 5)]

/-- A legacy document with no timestamp fields. -/
def legacyDoc0 : Doc := [("_id", JVal.str "n2"), ("title", JVal.str "Old")]

/-- An update body touching `title` and `description` only. -/
def updBody0 : Doc :=
  [("title", JVal.str "Algebra"), ("description", JVal.str "updated")]

/-! Verification of the claims. -/

/-- C1: the admin check is a strict superset of the session check — whenever
`verify_admin` succeeds with a claims mapping, `verify_token` on the same
request succeeds with the same claims mapping; and there is a request (valid
token, non-admin claims) accepted by `verify_token` but rejected by
`verify_admin`. -/
theorem C1_admin_superset_of_session :
    (∀ (decode : String → Option Claims) (req : Request) (c : Claims),
      verify_admin decode req = .ok c → verify_token decode req = .ok c) ∧
    (∃ (decode : String → Option Claims) (req : Request) (c : Claims),
      verify_token decode req = .ok c ∧
      verify_admin decode req = .error ⟨403, "Admin access required"⟩) := by
  constructor
  · intro decode req c h
    unfold verify_admin at h
    cases hc : req.cookie "token" with
    | none => simp [hc] at h
    | some tok =>
      by_cases ht : tok = ""
      · simp [hc, ht] at h
      · cases hd : decode tok with
        | none => simp [hc, ht, hd] at h
        | some payload =>
          by_cases ha : payload.adminTruthy
          · simp [hc, ht, hd, ha] at h
            simp [verify_token, hc, ht, hd, h]
          · simp [hc, ht, hd, ha] at h
  · exact ⟨decode0, reqUser, userClaims, rfl, rfl⟩

/-- Closed instantiation of C1 at a concrete admin request. -/
theorem C1_admin_superset_of_session_witness :
    verify_token decode0 reqAdmin = .ok adminClaims :=
  C1_admin_superset_of_session.1 decode0 reqAdmin adminClaims rfl

/-- C2: `verify_admin` realizes exactly the spec's failure taxonomy — 401
when the `token` cookie is absent, 401 when decoding fails, 403 when the
decoded claims lack a true `is_admin`, success returning the claims mapping
unchanged when `is_admin` is true, and only claims with `is_admin: true`
are ever accepted.  (Real JWT decoding rejects the empty string, taken as a
hypothesis on the decoder.) -/
theorem C2_verify_admin_taxonomy (decode : String → Option Claims)
    (hempty : decode "" = none) (req : Request) :
    (req.cookie "token" = none →
      verify_admin decode req = .error ⟨401, "Missing authentication token"⟩) ∧
    (∀ tok, req.cookie "token" = some tok → decode tok = none →
      ∃ e, verify_admin decode req = .error e ∧ e.status = 401) ∧
    (∀ tok c, req.cookie "token" = some tok → decode tok = some c →
      c.adminTruthy = false →
      verify_admin decode req = .error ⟨403, "Admin access required"⟩) ∧
    (∀ tok c, req.cookie "token" = some tok → decode tok = some c →
      c.adminTruthy = true → verify_admin decode req = .ok c) ∧
    (∀ c, verify_admin decode req = .ok c → c.is_admin = some true) := by
  refine ⟨?_, ?_, ?_, ?_, ?_⟩
  · intro hc
    simp [verify_admin, hc]
  · intro tok hc hd
    by_cases ht : tok = ""
    · exact ⟨⟨401, "Missing authentication token"⟩, by simp [verify_admin, hc, ht], rfl⟩
    · exact ⟨⟨401, "Invalid token"⟩, by simp [verify_admin, hc, ht, hd], rfl⟩
  · intro tok c hc hd ha
    have ht : ¬ tok = "" := by
      intro h0
      rw [h0] at hd
      rw [hempty] at hd
      cases hd
    simp [verify_admin, hc, ht, hd, ha]
  · intro tok c hc hd ha
    have ht : ¬ tok = "" := by
      intro h0
      rw [h0] at hd
      rw [hempty] at hd
      cases hd
    simp [verify_admin, hc, ht, hd, ha]
  · intro c h
    unfold verify_admin at h
    cases hc : req.cookie "token" with
    | none => simp [hc] at h
    | some tok =>
      by_cases ht : tok = ""
      · simp [hc, ht] at h
      · cases hd : decode tok with
        | none => simp [hc, ht, hd] at h
        | some payload =>
          by_cases ha : payload.adminTruthy
          · simp [hc, ht, hd, ha] at h
            subst h
            cases hb : payload.is_admin with
            | none => simp [Claims.adminTruthy, hb] at ha
            | some b =>
              cases b
              · simp [Claims.adminTruthy, hb] at ha
              · rfl
          · simp [hc, ht, hd, ha] at h

/-- Closed instantiation of C2: a valid non-admin session is rejected with
403. -/
theorem C2_verify_admin_taxonomy_witness :
    verify_admin decode0 reqUser = .error ⟨403, "Admin access required"⟩ :=
  (C2_verify_admin_taxonomy decode0 (by decide) reqUser).2.2.1 "tokU" userClaims
    (by decide) (by decide) (by decide)

/-- C3: an admin-authorization failure short-circuits every mutating
operation (create, update, delete) of every resource strictly before any
store access — the handler answers with the auth error and the collection is
returned unchanged. -/
theorem C3_auth_failure_short_circuits (decode : String → Option Claims)
    (req : Request) (e : HErr)
    (hauth : verify_admin decode req = .error e) :
    ∀ (dbSet : Bool) (st : List Doc) (body : Doc) (i : String) (now : Nat),
      create_note decode req dbSet st body i now = (.error e, st) ∧
      update_note decode req dbSet st i body now = (.error e, st) ∧
      delete_note decode req dbSet st i = (.error e, st) ∧
      create_paper decode req dbSet st body i now = (.error e, st) ∧
      update_paper decode req dbSet st i body now = (.error e, st) ∧
      delete_paper decode req dbSet st i = (.error e, st) ∧
      create_syllabus decode req dbSet st body i now = (.error e, st) ∧
      update_syllabus decode req dbSet st i body now = (.error e, st) ∧
      delete_syllabus decode req dbSet st i = (.error e, st) := by
  intro dbSet st body i now
  refine ⟨?_, ?_, ?_, ?_, ?_, ?_, ?_, ?_, ?_⟩ <;>
    simp [create_note, update_note, delete_note, create_paper, update_paper,
      delete_paper, create_syllabus, update_syllabus, delete_syllabus, hauth]

/-- Closed instantiation of C3: a valid non-admin request leaves a one-note
collection untouched on delete. -/
theorem C3_auth_failure_short_circuits_witness :
    delete_note decode0 reqUser true [[("_id", JVal.str "n1")]] "n1" =
      (.error ⟨403, "Admin access required"⟩, [[("_id", JVal.str "n1")]]) :=
  (C3_auth_failure_short_circuits decode0 reqUser ⟨403, "Admin access required"⟩
    rfl true [[("_id", JVal.str "n1")]] [] "n1" 0).2.2.1

/-! Association-list lemmas about the dictionary operations. -/

theorem getField_nil (k : String) : getField [] k = none := rfl

theorem getField_cons (p : String × JVal) (d : Doc) (k : String) :
    getField (p :: d) k = if p.1 == k then some p.2 else getField d k := by
  by_cases h : p.1 == k
  · simp [getField, List.find?_cons, h]
  · simp [getField, List.find?_cons, h]

theorem getField_setField_self (d : Doc) (k : String) (v : JVal) :
    getField (setField d k v) k = some v := by
  induction d with
  | nil => simp [setField, getField]
  | cons p d ih =>
    by_cases hp : p.1 = k
    · simp [setField, List.find?_cons, hp, getField]
    · have hp' : (p.1 == k) = false := by simp [hp]
      by_cases hf : (d.find? (fun q => q.1 == k)).isSome
      · simp only [setField, List.find?_cons, hp', Bool.false_eq_true, if_false, hf,
          if_pos, List.map_cons] at ih ⊢
        rw [getField_cons]
        simp only [hp', Bool.false_eq_true, if_false]
        simpa using ih
      · simp only [setField, List.find?_cons, hp', Bool.false_eq_true, if_false, hf,
          if_neg, List.cons_append] at ih ⊢
        rw [getField_cons]
        simp only [hp', Bool.false_eq_true, if_false]
        simpa [hf] using ih

theorem getField_map_set_other (d : Doc) (k k' : String) (v : JVal) (h : ¬ k = k') :
    getField (d.map (fun p => if p.1 == k then (k, v) else p)) k' = getField d k' := by
  induction d with
  | nil => rfl
  | cons p d ih =>
    by_cases hp : p.1 = k
    · simp only [List.map_cons, hp, beq_self_eq_true, if_true]
      rw [getField_cons, getField_cons]
      have h1 : ((k : String) == k') = false := by simp [h]
      have h2 : (p.1 == k') = false := by simp [hp, h]
      rw [h1, h2]
      simpa using ih
    · have h2 : (p.1 == k) = false := by simp [hp]
      simp only [List.map_cons, h2, Bool.false_eq_true, if_false]
      rw [getField_cons, getField_cons]
      by_cases hq : p.1 = k'
      · simp [hq]
      · have h3 : (p.1 == k') = false := by simp [hq]
        rw [h3]
        simpa using ih

theorem getField_append_single (d : Doc) (k k' : String) (v : JVal) (h : ¬ k = k') :
    getField (d ++ [(k, v)]) k' = getField d k' := by
  induction d with
  | nil =>
    rw [List.nil_append, getField_cons]
    simp [h, getField]
  | cons p d ih =>
    rw [List.cons_append, getField_cons, getField_cons]
    by_cases hq : p.1 = k'
    · simp [hq]
    · have h3 : (p.1 == k') = false := by simp [hq]
      rw [h3]
      simpa using ih

theorem getField_setField_other (d : Doc) (k k' : String) (v : JVal) (h : ¬ k = k') :
    getField (setField d k v) k' = getField d k' := by
  unfold setField
  by_cases hf : (d.find? (fun q => q.1 == k)).isSome
  · rw [if_pos hf]
    exact getField_map_set_other d k k' v h
  · rw [if_neg hf]
    exact getField_append_single d k k' v h

theorem getField_removeField_self (d : Doc) (k : String) :
    getField (removeField d k) k = none := by
  induction d with
  | nil => rfl
  | cons p d ih =>
    unfold removeField at ih ⊢
    rw [List.filter_cons]
    by_cases hp : p.1 = k
    · simp only [hp, bne_self_eq_false, Bool.false_eq_true, if_false]
      exact ih
    · have h2 : (p.1 != k) = true := by simp [hp]
      simp only [h2, if_true]
      rw [getField_cons]
      have h3 : (p.1 == k) = false := by simp [hp]
      rw [h3]
      simpa using ih

theorem getField_removeField_other (d : Doc) (k k' : String) (h : ¬ k = k') :
    getField (removeField d k) k' = getField d k' := by
  induction d with
  | nil => rfl
  | cons p d ih =>
    unfold removeField at ih ⊢
    rw [List.filter_cons]
    by_cases hp : p.1 = k
    · have h3 : (p.1 == k') = false := by simp [hp, h]
      simp only [hp, bne_self_eq_false, Bool.false_eq_true, if_false]
      rw [getField_cons, h3]
      simpa using ih
    · have h2 : (p.1 != k) = true := by simp [hp]
      simp only [h2, if_true]
      rw [getField_cons, getField_cons]
      by_cases hq : p.1 = k'
      · simp [hq]
      · have h3 : (p.1 == k') = false := by simp [hq]
        rw [h3]
        simpa using ih

theorem getField_eq_none_of_not_mem_keys (d : Doc) (k : String)
    (h : k ∉ d.map Prod.fst) : getField d k = none := by
  induction d with
  | nil => rfl
  | cons p d ih =>
    rw [getField_cons]
    rw [List.map_cons, List.mem_cons] at h
    push_neg at h
    have h3 : (p.1 == k) = false := by
      simp only [beq_eq_false_iff_ne, ne_eq]
      intro hp
      exact h.1 hp.symm
    rw [h3]
    exact ih h.2

theorem getField_setFields_none (u : Doc) (d : Doc) (k : String)
    (h : getField u k = none) : getField (setFields d u) k = getField d k := by
  induction u generalizing d with
  | nil => rfl
  | cons p u ih =>
    obtain ⟨k', v'⟩ := p
    rw [getField_cons] at h
    by_cases hk : k' = k
    · simp [hk] at h
    · have h3 : ((k' : String) == k) = false := by simp [hk]
      rw [h3] at h
      simp only [Bool.false_eq_true, if_false] at h
      show getField (setFields (setField d k' v') u) k = getField d k
      rw [ih (setField d k' v') h]
      exact getField_setField_other d k' k v' hk

theorem getField_setFields_some (u : Doc) (d : Doc) (k : String) (v : JVal)
    (hnd : (u.map Prod.fst).Nodup) (h : getField u k = some v) :
    getField (setFields d u) k = some v := by
  induction u generalizing d with
  | nil => simp [getField] at h
  | cons p u ih =>
    obtain ⟨k', v'⟩ := p
    rw [getField_cons] at h
    rw [List.map_cons, List.nodup_cons] at hnd
    by_cases hk : k' = k
    · have h3 : ((k' : String) == k) = true := by simp [hk]
      rw [h3] at h
      simp only [if_true, Option.some.injEq] at h
      have hrest : getField u k = none := by
        apply getField_eq_none_of_not_mem_keys
        rw [← hk]
        exact hnd.1
      show getField (setFields (setField d k' v') u) k = some v
      rw [getField_setFields_none u (setField d k' v') k hrest]
      rw [hk]
      rw [getField_setField_self]
      rw [h]
    · have h3 : ((k' : String) == k) = false := by simp [hk]
      rw [h3] at h
      simp only [Bool.false_eq_true, if_false] at h
      show getField (setFields (setField d k' v') u) k = some v
      exact ih (setField d k' v') hnd.2 h

/-! Store-operation lemmas. -/

theorem findOne_cons (d : Doc) (c : List Doc) (i : String) :
    findOne (d :: c) i =
      if getField d "_id" == some (.str i) then some d else findOne c i := by
  by_cases h : getField d "_id" == some (.str i)
  · simp [findOne, List.find?_cons, h]
  · simp [findOne, List.find?_cons, h]

theorem mem_of_findOne_eq_some (c : List Doc) (i : String) (d : Doc)
    (h : findOne c i = some d) : d ∈ c :=
  List.mem_of_find?_eq_some h

theorem id_of_findOne_eq_some (c : List Doc) (i : String) (d : Doc)
    (h : findOne c i = some d) : getField d "_id" = some (.str i) := by
  have := List.find?_some h
  exact eq_of_beq this

theorem deleteOne_of_findOne_none (c : List Doc) (i : String)
    (h : findOne c i = none) : deleteOne c i = (c, 0) := by
  induction c with
  | nil => rfl
  | cons d c ih =>
    rw [findOne_cons] at h
    by_cases hd : getField d "_id" == some (.str i)
    · rw [if_pos hd] at h
      cases h
    · rw [if_neg hd] at h
      have hd' : (getField d "_id" == some (.str i)) = false := by
        simpa using hd
      simp only [deleteOne, hd', Bool.false_eq_true, if_false]
      rw [ih h]

theorem deleteOne_count_of_findOne_some (c : List Doc) (i : String) (d : Doc)
    (h : findOne c i = some d) : (deleteOne c i).2 = 1 := by
  induction c with
  | nil => cases h
  | cons e c ih =>
    rw [findOne_cons] at h
    by_cases he : getField e "_id" == some (.str i)
    · have he' : (getField e "_id" == some (.str i)) = true := by simpa using he
      simp [deleteOne, he']
    · rw [if_neg he] at h
      have he' : (getField e "_id" == some (.str i)) = false := by simpa using he
      simp only [deleteOne, he', Bool.false_eq_true, if_false]
      exact ih h

theorem findOne_eq_none_of_idCount_zero (c : List Doc) (i : String)
    (h : idCount c i = 0) : findOne c i = none := by
  induction c with
  | nil => rfl
  | cons d c ih =>
    unfold idCount at h
    rw [List.filter_cons] at h
    by_cases hd : getField d "_id" == some (.str i)
    · rw [if_pos hd] at h
      simp at h
    · have hd' : (getField d "_id" == some (.str i)) = false := by simpa using hd
      rw [hd'] at h
      simp only [Bool.false_eq_true, if_false] at h
      rw [findOne_cons, hd']
      simp only [Bool.false_eq_true, if_false]
      exact ih h

theorem findOne_deleteOne_of_unique (c : List Doc) (i : String) (d : Doc)
    (hu : idCount c i ≤ 1) (h : findOne c i = some d) :
    findOne (deleteOne c i).1 i = none := by
  induction c with
  | nil => cases h
  | cons e c ih =>
    rw [findOne_cons] at h
    by_cases he : getField e "_id" == some (.str i)
    · have he' : (getField e "_id" == some (.str i)) = true := by simpa using he
      simp only [deleteOne, he', if_true]
      apply findOne_eq_none_of_idCount_zero
      unfold idCount at hu ⊢
      rw [List.filter_cons, if_pos he'] at hu
      simp only [List.length_cons] at hu
      omega
    · rw [if_neg he] at h
      have he' : (getField e "_id" == some (.str i)) = false := by simpa using he
      simp only [deleteOne, he', Bool.false_eq_true, if_false]
      rw [findOne_cons, he']
      simp only [Bool.false_eq_true, if_false]
      apply ih _ h
      unfold idCount at hu ⊢
      rw [List.filter_cons, he'] at hu
      simpa using hu

theorem findOne_append_of_none (c : List Doc) (i : String) (d : Doc)
    (hc : findOne c i = none) (hd : getField d "_id" = some (.str i)) :
    findOne (c ++ [d]) i = some d := by
  induction c with
  | nil =>
    rw [List.nil_append, findOne_cons, hd]
    simp
  | cons e c ih =>
    rw [findOne_cons] at hc
    by_cases he : getField e "_id" == some (.str i)
    · rw [if_pos he] at hc
      cases hc
    · rw [if_neg he] at hc
      have he' : (getField e "_id" == some (.str i)) = false := by simpa using he
      rw [List.cons_append, findOne_cons, he']
      simp only [Bool.false_eq_true, if_false]
      exact ih hc

theorem findOne_updateOne_self (c : List Doc) (i : String) (u : Doc) (d : Doc)
    (hid : getField u "_id" = none) (h : findOne c i = some d) :
    findOne (updateOne c i u) i = some (setFields d u) := by
  induction c with
  | nil => cases h
  | cons e c ih =>
    rw [findOne_cons] at h
    by_cases he : getField e "_id" == some (.str i)
    · have he' : (getField e "_id" == some (.str i)) = true := by simpa using he
      rw [if_pos he] at h
      have hset : getField (setFields e u) "_id" = getField e "_id" :=
        getField_setFields_none u e "_id" hid
      simp only [updateOne, he', if_true]
      rw [findOne_cons, hset, he']
      simp only [if_true]
      cases h
      rfl
    · have he' : (getField e "_id" == some (.str i)) = false := by simpa using he
      rw [if_neg he] at h
      simp only [updateOne, he', Bool.false_eq_true, if_false]
      rw [findOne_cons, he']
      simp only [Bool.false_eq_true, if_false]
      exact ih h

theorem findOne_updateOne_other (c : List Doc) (i j : String) (u : Doc)
    (hid : getField u "_id" = none) (hij : ¬ i = j) :
    findOne (updateOne c i u) j = findOne c j := by
  induction c with
  | nil => rfl
  | cons e c ih =>
    by_cases he : getField e "_id" == some (.str i)
    · have he' : (getField e "_id" == some (.str i)) = true := by simpa using he
      have heq : getField e "_id" = some (.str i) := by
        exact eq_of_beq he'
      have hset : getField (setFields e u) "_id" = getField e "_id" :=
        getField_setFields_none u e "_id" hid
      simp only [updateOne, he', if_true]
      rw [findOne_cons, findOne_cons, hset, heq]
      have hj2 : ((some (JVal.str i) == some (JVal.str j)) = false) := by
        simp
        intro hji
        exact hij hji
      rw [hj2]
      simp
    · have he' : (getField e "_id" == some (.str i)) = false := by simpa using he
      simp only [updateOne, he', Bool.false_eq_true, if_false]
      rw [findOne_cons, findOne_cons]
      rw [ih]

/-! Pagination and sorting lemmas. -/

theorem page_sublist (c : List Doc) (a b : Nat) : ((c.drop a).take b).Sublist c :=
  ((c.drop a).take_sublist b).trans (c.drop_sublist a)

theorem mem_page (r : Doc) (c : List Doc) (a b : Nat)
    (h : r ∈ ((sortByCreatedDesc c).drop a).take b) : r ∈ c := by
  have h1 : r ∈ sortByCreatedDesc c := (page_sublist _ a b).subset h
  exact (List.perm_insertionSort docGE c).subset h1

theorem page_sorted (c : List Doc) (a b : Nat) :
    List.Pairwise docGE (((sortByCreatedDesc c).drop a).take b) := by
  have hs : List.Pairwise docGE (sortByCreatedDesc c) :=
    List.sorted_insertionSort docGE c
  exact hs.sublist (page_sublist _ a b)

theorem page_length_le_limit (c : List Doc) (a b : Nat) :
    (((sortByCreatedDesc c).drop a).take b).length ≤ b := by
  rw [List.length_take]
  exact min_le_left _ _

theorem page_length_le_total (c : List Doc) (a b : Nat) :
    (((sortByCreatedDesc c).drop a).take b).length ≤ c.length := by
  have h1 : (((sortByCreatedDesc c).drop a).take b).length ≤ (sortByCreatedDesc c).length :=
    (page_sublist _ a b).length_le
  have h2 : (sortByCreatedDesc c).length = c.length :=
    (List.perm_insertionSort docGE c).length_eq
  omega

/-! Serializer lemmas. -/

theorem renderDoc_fields (now : Nat) (d : Doc) (s : String)
    (hid : getField d "_id" = some (.str s)) :
    getField (renderDoc now d) "_id" = none ∧
    getField (renderDoc now d) "id" = some (.str s) ∧
    getField (renderDoc now d) "created_at" =
      some (isoTime (getField d "created_at") now) ∧
    getField (renderDoc now d) "updated_at" =
      some (isoTime (getField d "updated_at") now) := by
  simp only [renderDoc, hid, Option.getD_some]
  refine ⟨?_, ?_, ?_, ?_⟩
  · rw [getField_setField_other _ "updated_at" "_id" _ (by decide),
      getField_setField_other _ "created_at" "_id" _ (by decide),
      getField_setField_other _ "id" "_id" _ (by decide),
      getField_removeField_self]
  · rw [getField_setField_other _ "updated_at" "id" _ (by decide),
      getField_setField_other _ "created_at" "id" _ (by decide),
      getField_setField_self]
  · rw [getField_setField_other _ "updated_at" "created_at" _ (by decide),
      getField_setField_self,
      getField_setField_other _ "id" "created_at" _ (by decide),
      getField_removeField_other _ "_id" "created_at" (by decide)]
  · rw [getField_setField_self,
      getField_setField_other _ "created_at" "updated_at" _ (by decide),
      getField_setField_other _ "id" "updated_at" _ (by decide),
      getField_removeField_other _ "_id" "updated_at" (by decide)]

theorem renderedOK_of_wf (now : Nat) (d : Doc) (h : wfDoc d) :
    renderedOK (renderDoc now d) := by
  obtain ⟨⟨s, hs⟩, hc, hu⟩ := h
  obtain ⟨h1, h2, h3, h4⟩ := renderDoc_fields now d s hs
  refine ⟨h1, ⟨s, h2⟩, ?_, ?_⟩
  · cases hcv : getField d "created_at" with
    | none =>
      refine ⟨isoformat now, ?_⟩
      rw [h3, hcv]
      rfl
    | some v =>
      cases v with
      | time t =>
        refine ⟨isoformat t, ?_⟩
        rw [h3, hcv]
        rfl
      | str s' =>
        rw [hcv] at hc
        simp [timeOK] at hc
      | arr xs =>
        rw [hcv] at hc
        simp [timeOK] at hc
      | null =>
        rw [hcv] at hc
        simp [timeOK] at hc
  · cases huv : getField d "updated_at" with
    | none =>
      refine ⟨isoformat now, ?_⟩
      rw [h4, huv]
      rfl
    | some v =>
      cases v with
      | time t =>
        refine ⟨isoformat t, ?_⟩
        rw [h4, huv]
        rfl
      | str s' =>
        rw [huv] at hu
        simp [timeOK] at hu
      | arr xs =>
        rw [huv] at hu
        simp [timeOK] at hu
      | null =>
        rw [huv] at hu
        simp [timeOK] at hu

theorem renderedOK_of_mem_page (st base : List Doc) (now : Nat) (a b : Nat)
    (hsub : ∀ d ∈ base, d ∈ st) (hwf : ∀ d ∈ st, wfDoc d) :
    ∀ r ∈ (((sortByCreatedDesc base).drop a).take b).map (renderDoc now),
      renderedOK r := by
  intro r hr
  rw [List.mem_map] at hr
  obtain ⟨p, hp, rfl⟩ := hr
  exact renderedOK_of_wf now p (hwf p (hsub p (mem_page p base a b hp)))

/-- C4 counterexample: the claim includes create among the operations whose
rendered record never carries the storage name `_id`, but the create
handler answers with `{"id": note_id, **doc}` where `doc` still contains
`_id` (and raw datetimes): a concrete valid admin create call returns a
`data` object carrying both `id` and `_id`. -/
theorem C4_counterexample_create_exposes_storage_name :
    create_note decode0 reqAdmin true [] noteBody0 "n1" 5 =
      (.ok ⟨"Note created successfully",
        [("id", JVal.str "n1"), ("title", JVal.str "Algebra"),
         ("description", JVal.null), ("content", JVal.null),
         ("tags", JVal.arr []), ("_id", JVal.str "n1"),
         ("created_at", JVal.time 5), ("updated_at", JVal.time 5)]⟩,
       [noteDoc0]) := rfl

/-- C4 (amended): in every successful response of list, search and get — on
all three resources — each rendered record carries the identifier under the
public name `id` and never under its storage name `_id`, and both timestamps
are rendered as strings, a missing stored timestamp being replaced by the
current time; the create response, by contrast, carries the identifier under
`id` but also retains the storage `_id` key (see the counterexample). -/
theorem C4_amended_serialization (st : List Doc) (now : Nat) (i q : String)
    (skip limit : Int) (maxPage : Nat)
    (hwf : ∀ d ∈ st, wfDoc d) :
    (∀ r, get_note true st i now = .ok r → renderedOK r) ∧
    (∀ resp, get_notes true st maxPage now skip limit = .ok resp →
      ∀ r ∈ resp.data, renderedOK r) ∧
    (∀ resp, search_notes true st maxPage now q skip limit = .ok resp →
      ∀ r ∈ resp.data, renderedOK r) ∧
    (∀ r, get_paper true st i now = .ok r → renderedOK r) ∧
    (∀ resp, get_papers true st maxPage now skip limit = .ok resp →
      ∀ r ∈ resp.data, renderedOK r) ∧
    (∀ resp, search_papers true st maxPage now q skip limit = .ok resp →
      ∀ r ∈ resp.data, renderedOK r) ∧
    (∀ r, get_one_syllabus true st i now = .ok r → renderedOK r) ∧
    (∀ resp, get_syllabus true st maxPage now skip limit = .ok resp →
      ∀ r ∈ resp.data, renderedOK r) ∧
    (∀ resp, search_syllabus true st maxPage now q skip limit = .ok resp →
      ∀ r ∈ resp.data, renderedOK r) ∧
    (∀ d r, findOne st i = some d → get_note true st i now = .ok r →
      (getField d "created_at" = none →
        getField r "created_at" = some (.str (isoformat now))) ∧
      (getField d "updated_at" = none →
        getField r "updated_at" = some (.str (isoformat now)))) := by
  refine ⟨?_, ?_, ?_, ?_, ?_, ?_, ?_, ?_, ?_, ?_⟩
  · intro r h
    unfold get_note at h
    simp only [Bool.not_true, Bool.false_eq_true, if_false] at h
    cases hf : findOne st i with
    | none => rw [hf] at h; simp at h
    | some d =>
      rw [hf] at h
      simp only [Except.ok.injEq] at h
      subst h
      exact renderedOK_of_wf now d (hwf d (mem_of_findOne_eq_some st i d hf))
  · intro resp h
    unfold get_notes at h
    split at h
    · simp at h
    · simp only [Bool.not_true, Bool.false_eq_true, if_false, Except.ok.injEq] at h
      subst h
      exact renderedOK_of_mem_page st st now _ _ (fun d hd => hd) hwf
  · intro resp h
    unfold search_notes at h
    split at h
    · simp at h
    · simp only [Bool.not_true, Bool.false_eq_true, if_false, Except.ok.injEq] at h
      subst h
      exact renderedOK_of_mem_page st _ now _ _
        (fun d hd => (List.mem_filter.mp hd).1) hwf
  · intro r h
    unfold get_paper at h
    simp only [Bool.not_true, Bool.false_eq_true, if_false] at h
    cases hf : findOne st i with
    | none => rw [hf] at h; simp at h
    | some d =>
      rw [hf] at h
      simp only [Except.ok.injEq] at h
      subst h
      exact renderedOK_of_wf now d (hwf d (mem_of_findOne_eq_some st i d hf))
  · intro resp h
    unfold get_papers at h
    split at h
    · simp at h
    · simp only [Bool.not_true, Bool.false_eq_true, if_false, Except.ok.injEq] at h
      subst h
      exact renderedOK_of_mem_page st st now _ _ (fun d hd => hd) hwf
  · intro resp h
    unfold search_papers at h
    split at h
    · simp at h
    · simp only [Bool.not_true, Bool.false_eq_true, if_false, Except.ok.injEq] at h
      subst h
      exact renderedOK_of_mem_page st _ now _ _
        (fun d hd => (List.mem_filter.mp hd).1) hwf
  · intro r h
    unfold get_one_syllabus at h
    simp only [Bool.not_true, Bool.false_eq_true, if_false] at h
    cases hf : findOne st i with
    | none => rw [hf] at h; simp at h
    | some d =>
      rw [hf] at h
      simp only [Except.ok.injEq] at h
      subst h
      exact renderedOK_of_wf now d (hwf d (mem_of_findOne_eq_some st i d hf))
  · intro resp h
    unfold get_syllabus at h
    split at h
    · simp at h
    · simp only [Bool.not_true, Bool.false_eq_true, if_false, Except.ok.injEq] at h
      subst h
      exact renderedOK_of_mem_page st st now _ _ (fun d hd => hd) hwf
  · intro resp h
    unfold search_syllabus at h
    split at h
    · simp at h
    · simp only [Bool.not_true, Bool.false_eq_true, if_false, Except.ok.injEq] at h
      subst h
      exact renderedOK_of_mem_page st _ now _ _
        (fun d hd => (List.mem_filter.mp hd).1) hwf
  · intro d r hf h
    unfold get_note at h
    simp only [Bool.not_true, Bool.false_eq_true, if_false, hf, Except.ok.injEq] at h
    subst h
    obtain ⟨s, hs⟩ := (hwf d (mem_of_findOne_eq_some st i d hf)).1
    obtain ⟨_, _, h3, h4⟩ := renderDoc_fields now d s hs
    constructor
    · intro hc
      rw [h3, hc]
      rfl
    · intro hu
      rw [h4, hu]
      rfl

/-- Closed instantiation of C4 (amended): the serialized form of a concrete
stored note has `id`, no `_id`, and string timestamps. -/
theorem C4_amended_serialization_witness : renderedOK (renderDoc 7 noteDoc0) :=
  (C4_amended_serialization [noteDoc0] 7 "n1" "x" 0 10 50
    (fun d hd => by
      rw [List.mem_singleton] at hd
      subst hd
      exact ⟨⟨"n1", rfl⟩, rfl, rfl⟩)).1 (renderDoc 7 noteDoc0) rfl

/-! Lemmas about `$set` payload construction for partial updates. -/

theorem getField_append_of_some (d e : Doc) (k : String) (v : JVal)
    (h : getField d k = some v) : getField (d ++ e) k = some v := by
  induction d with
  | nil => cases h
  | cons p d ih =>
    rw [getField_cons] at h
    rw [List.cons_append, getField_cons]
    by_cases hp : p.1 = k
    · have hp' : (p.1 == k) = true := by simp [hp]
      rw [hp'] at h ⊢
      exact h
    · have hp' : (p.1 == k) = false := by simp [hp]
      rw [hp'] at h ⊢
      simp only [Bool.false_eq_true, if_false] at h ⊢
      exact ih h

theorem getField_append_none (d e : Doc) (k : String)
    (hd : getField d k = none) (he : getField e k = none) :
    getField (d ++ e) k = none := by
  induction d with
  | nil => simpa using he
  | cons p d ih =>
    rw [getField_cons] at hd
    rw [List.cons_append, getField_cons]
    by_cases hp : p.1 = k
    · have hp' : (p.1 == k) = true := by simp [hp]
      rw [hp'] at hd
      cases hd
    · have hp' : (p.1 == k) = false := by simp [hp]
      rw [hp'] at hd ⊢
      simp only [Bool.false_eq_true, if_false] at hd ⊢
      exact ih hd

theorem getField_append_self_of_none (d : Doc) (k : String) (v : JVal)
    (h : getField d k = none) : getField (d ++ [(k, v)]) k = some v := by
  induction d with
  | nil => simp [getField_cons, getField]
  | cons p d ih =>
    rw [getField_cons] at h
    rw [List.cons_append, getField_cons]
    by_cases hp : p.1 = k
    · have hp' : (p.1 == k) = true := by simp [hp]
      rw [hp'] at h
      cases h
    · have hp' : (p.1 == k) = false := by simp [hp]
      rw [hp'] at h ⊢
      simp only [Bool.false_eq_true, if_false] at h ⊢
      exact ih h

theorem setField_eq_append_of_none (d : Doc) (k : String) (v : JVal)
    (h : getField d k = none) : setField d k v = d ++ [(k, v)] := by
  unfold setField
  have hf : (d.find? (fun q => q.1 == k)).isSome = false := by
    unfold getField at h
    cases hq : d.find? (fun q => q.1 == k) with
    | none => simp
    | some p => rw [hq] at h; cases h
  rw [hf]
  simp

theorem getField_filter_eq_none (d : Doc) (f : String × JVal → Bool) (k : String)
    (h : ∀ v : JVal, f (k, v) = false) : getField (d.filter f) k = none := by
  induction d with
  | nil => rfl
  | cons p d ih =>
    rw [List.filter_cons]
    by_cases hf : f p
    · rw [if_pos hf, getField_cons]
      by_cases hp : p.1 = k
      · exfalso
        have : f (k, p.2) = false := h p.2
        rw [← hp] at this
        rw [hf] at this
        cases this
      · have hp' : (p.1 == k) = false := by simp [hp]
        rw [hp']
        simpa using ih
    · have hf' : (f p) = false := by simpa using hf
      rw [hf']
      simp only [Bool.false_eq_true, if_false]
      exact ih

theorem mem_keys_of_mem_keys_filter (d : Doc) (f : String × JVal → Bool)
    (k : String) (h : k ∈ (d.filter f).map Prod.fst) : k ∈ d.map Prod.fst :=
  ((List.filter_sublist d).map Prod.fst).subset h

theorem keys_filter_nodup (d : Doc) (f : String × JVal → Bool)
    (h : (d.map Prod.fst).Nodup) : ((d.filter f).map Prod.fst).Nodup :=
  h.sublist ((List.filter_sublist d).map Prod.fst)

theorem setFields_update_frame (d dict : Doc) (fs : List String) (now : Nat)
    (hnd : (dict.map Prod.fst).Nodup)
    (hupd : "updated_at" ∉ dict.map Prod.fst) :
    (∀ k, fs.contains k = false → ¬ k = "updated_at" →
      getField (setFields d (setField (dict.filter (fun kv => fs.contains kv.1))
        "updated_at" (.time now))) k = getField d k) ∧
    (∀ k v, getField (dict.filter (fun kv => fs.contains kv.1)) k = some v →
      getField (setFields d (setField (dict.filter (fun kv => fs.contains kv.1))
        "updated_at" (.time now))) k = some v) ∧
    getField (setFields d (setField (dict.filter (fun kv => fs.contains kv.1))
      "updated_at" (.time now))) "updated_at" = some (.time now) ∧
    (∀ k, k ∉ dict.map Prod.fst → ¬ k = "updated_at" →
      getField (setFields d (setField (dict.filter (fun kv => fs.contains kv.1))
        "updated_at" (.time now))) k = getField d k) := by
  have hexnone : getField (dict.filter (fun kv => fs.contains kv.1))
      "updated_at" = none := by
    apply getField_eq_none_of_not_mem_keys
    intro hmem
    exact hupd (mem_keys_of_mem_keys_filter _ _ _ hmem)
  have hset : setField (dict.filter (fun kv => fs.contains kv.1)) "updated_at"
      (JVal.time now) =
      dict.filter (fun kv => fs.contains kv.1) ++ [("updated_at", JVal.time now)] :=
    setField_eq_append_of_none _ _ _ hexnone
  have hexnodup : ((dict.filter (fun kv => fs.contains kv.1)).map Prod.fst).Nodup :=
    keys_filter_nodup dict _ hnd
  have hndall : (((dict.filter (fun kv => fs.contains kv.1)) ++
      [("updated_at", JVal.time now)]).map Prod.fst).Nodup := by
    rw [List.map_append]
    rw [List.nodup_append]
    refine ⟨hexnodup, List.nodup_singleton _, ?_⟩
    intro a ha hb
    rw [List.map_singleton, List.mem_singleton] at hb
    subst hb
    exact hupd (mem_keys_of_mem_keys_filter _ _ _ ha)
  refine ⟨?_, ?_, ?_, ?_⟩
  · intro k hk hku
    rw [hset]
    apply getField_setFields_none
    apply getField_append_none
    · apply getField_filter_eq_none
      intro v
      simpa using hk
    · rw [getField_cons]
      have : (("updated_at" : String) == k) = false := by
        simp
        intro h0
        exact hku h0.symm
      rw [this]
      rfl
  · intro k v hk
    rw [hset]
    exact getField_setFields_some _ _ _ _ hndall (getField_append_of_some _ _ _ _ hk)
  · rw [hset]
    exact getField_setFields_some _ _ _ _ hndall
      (getField_append_self_of_none _ _ _ hexnone)
  · intro k hk hku
    rw [hset]
    apply getField_setFields_none
    apply getField_append_none
    · apply getField_eq_none_of_not_mem_keys
      intro hmem
      exact hk (mem_keys_of_mem_keys_filter _ _ _ hmem)
    · rw [getField_cons]
      have : (("updated_at" : String) == k) = false := by
        simp
        intro h0
        exact hku h0.symm
      rw [this]
      rfl

theorem getField_setField_filter_none (dict : Doc) (fs : List String)
    (now : Nat) (k : String) (hupd : "updated_at" ∉ dict.map Prod.fst)
    (hk : k ∉ dict.map Prod.fst) (hku : ¬ k = "updated_at") :
    getField (setField (dict.filter (fun kv => fs.contains kv.1)) "updated_at"
      (JVal.time now)) k = none := by
  rw [setField_eq_append_of_none]
  · apply getField_append_none
    · apply getField_eq_none_of_not_mem_keys
      intro hmem
      exact hk (mem_keys_of_mem_keys_filter _ _ _ hmem)
    · rw [getField_cons]
      have h1 : (("updated_at" : String) == k) = false := by
        simp
        intro h0
        exact hku h0.symm
      rw [h1]
      rfl
  · apply getField_eq_none_of_not_mem_keys
    intro hmem
    exact hupd (mem_keys_of_mem_keys_filter _ _ _ hmem)

/-- C5: for every resource, a successful update with an id present in the
collection applies exactly the fields explicitly present in the payload plus
a fresh `updated_at`: provided fields take the payload's values, every other
field — `created_at` and the identifier included — is unchanged, other
documents are untouched, and `updated_at` strictly increases whenever the
clock has advanced past its previous value. -/
theorem C5_update_frame (decode : String → Option Claims) (req : Request)
    (c : Claims) (hauth : verify_admin decode req = .ok c)
    (st : List Doc) (i : String) (body : Doc) (now : Nat) :
    (∀ p d, parseNoteIn body = some p → findOne st i = some d →
      update_note decode req true st i body now =
        (.ok "Note updated successfully",
          updateOne st i (setField p.dictExcludeUnset "updated_at" (.time now))) ∧
      findOne (update_note decode req true st i body now).2 i =
        some (setFields d (setField p.dictExcludeUnset "updated_at" (.time now))) ∧
      (∀ k, p.fieldsSet.contains k = false → ¬ k = "updated_at" →
        getField (setFields d (setField p.dictExcludeUnset "updated_at"
          (.time now))) k = getField d k) ∧
      (∀ k v, getField p.dictExcludeUnset k = some v →
        getField (setFields d (setField p.dictExcludeUnset "updated_at"
          (.time now))) k = some v) ∧
      getField (setFields d (setField p.dictExcludeUnset "updated_at"
        (.time now))) "updated_at" = some (.time now) ∧
      getField (setFields d (setField p.dictExcludeUnset "updated_at"
        (.time now))) "created_at" = getField d "created_at" ∧
      getField (setFields d (setField p.dictExcludeUnset "updated_at"
        (.time now))) "_id" = getField d "_id" ∧
      (∀ j, ¬ i = j → findOne (update_note decode req true st i body now).2 j =
        findOne st j) ∧
      (∀ t0, getField d "updated_at" = some (.time t0) → t0 < now →
        ∃ t1, getField (setFields d (setField p.dictExcludeUnset "updated_at"
          (.time now))) "updated_at" = some (.time t1) ∧ t0 < t1)) ∧
    (∀ p d, parsePaperIn body = some p → findOne st i = some d →
      update_paper decode req true st i body now =
        (.ok "Paper updated successfully",
          updateOne st i (setField p.dictExcludeUnset "updated_at" (.time now))) ∧
      findOne (update_paper decode req true st i body now).2 i =
        some (setFields d (setField p.dictExcludeUnset "updated_at" (.time now))) ∧
      (∀ k, p.fieldsSet.contains k = false → ¬ k = "updated_at" →
        getField (setFields d (setField p.dictExcludeUnset "updated_at"
          (.time now))) k = getField d k) ∧
      (∀ k v, getField p.dictExcludeUnset k = some v →
        getField (setFields d (setField p.dictExcludeUnset "updated_at"
          (.time now))) k = some v) ∧
      getField (setFields d (setField p.dictExcludeUnset "updated_at"
        (.time now))) "updated_at" = some (.time now) ∧
      getField (setFields d (setField p.dictExcludeUnset "updated_at"
        (.time now))) "created_at" = getField d "created_at" ∧
      getField (setFields d (setField p.dictExcludeUnset "updated_at"
        (.time now))) "_id" = getField d "_id" ∧
      (∀ j, ¬ i = j → findOne (update_paper decode req true st i body now).2 j =
        findOne st j) ∧
      (∀ t0, getField d "updated_at" = some (.time t0) → t0 < now →
        ∃ t1, getField (setFields d (setField p.dictExcludeUnset "updated_at"
          (.time now))) "updated_at" = some (.time t1) ∧ t0 < t1)) ∧
    (∀ p d, parseSyllabusIn body = some p → findOne st i = some d →
      update_syllabus decode req true st i body now =
        (.ok "Syllabus updated successfully",
          updateOne st i (setField p.dictExcludeUnset "updated_at" (.time now))) ∧
      findOne (update_syllabus decode req true st i body now).2 i =
        some (setFields d (setField p.dictExcludeUnset "updated_at" (.time now))) ∧
      (∀ k, p.fieldsSet.contains k = false → ¬ k = "updated_at" →
        getField (setFields d (setField p.dictExcludeUnset "updated_at"
          (.time now))) k = getField d k) ∧
      (∀ k v, getField p.dictExcludeUnset k = some v →
        getField (setFields d (setField p.dictExcludeUnset "updated_at"
          (.time now))) k = some v) ∧
      getField (setFields d (setField p.dictExcludeUnset "updated_at"
        (.time now))) "updated_at" = some (.time now) ∧
      getField (setFields d (setField p.dictExcludeUnset "updated_at"
        (.time now))) "created_at" = getField d "created_at" ∧
      getField (setFields d (setField p.dictExcludeUnset "updated_at"
        (.time now))) "_id" = getField d "_id" ∧
      (∀ j, ¬ i = j → findOne (update_syllabus decode req true st i body now).2 j =
        findOne st j) ∧
      (∀ t0, getField d "updated_at" = some (.time t0) → t0 < now →
        ∃ t1, getField (setFields d (setField p.dictExcludeUnset "updated_at"
          (.time now))) "updated_at" = some (.time t1) ∧ t0 < t1)) := by
  refine ⟨?_, ?_, ?_⟩
  · intro p d hp hf
    have hdict : p.dict.map Prod.fst =
        ["title", "description", "content", "tags"] := rfl
    have hnd : (p.dict.map Prod.fst).Nodup := by rw [hdict]; decide
    have hupdmem : "updated_at" ∉ p.dict.map Prod.fst := by rw [hdict]; decide
    have hidmem : "_id" ∉ p.dict.map Prod.fst := by rw [hdict]; decide
    have hcrmem : "created_at" ∉ p.dict.map Prod.fst := by rw [hdict]; decide
    obtain ⟨fr1, fr2, fr3, fr4⟩ :=
      setFields_update_frame d p.dict p.fieldsSet now hnd hupdmem
    have hidnone : getField (setField p.dictExcludeUnset "updated_at"
        (JVal.time now)) "_id" = none :=
      getField_setField_filter_none p.dict p.fieldsSet now "_id" hupdmem hidmem
        (by decide)
    have hrun : update_note decode req true st i body now =
        (.ok "Note updated successfully",
          updateOne st i (setField p.dictExcludeUnset "updated_at" (.time now))) := by
      simp only [update_note, hauth, hp, Bool.not_true, Bool.false_eq_true,
        if_false, hf]
    refine ⟨hrun, ?_, fr1, fr2, fr3, fr4 "created_at" hcrmem (by decide),
      fr4 "_id" hidmem (by decide), ?_, ?_⟩
    · rw [hrun]
      exact findOne_updateOne_self st i _ d hidnone hf
    · intro j hij
      rw [hrun]
      exact findOne_updateOne_other st i j _ hidnone hij
    · intro t0 ht0 hlt
      exact ⟨now, fr3, hlt⟩
  · intro p d hp hf
    have hdict : p.dict.map Prod.fst =
        ["title", "authors", "abstract", "file_url", "tags"] := rfl
    have hnd : (p.dict.map Prod.fst).Nodup := by rw [hdict]; decide
    have hupdmem : "updated_at" ∉ p.dict.map Prod.fst := by rw [hdict]; decide
    have hidmem : "_id" ∉ p.dict.map Prod.fst := by rw [hdict]; decide
    have hcrmem : "created_at" ∉ p.dict.map Prod.fst := by rw [hdict]; decide
    obtain ⟨fr1, fr2, fr3, fr4⟩ :=
      setFields_update_frame d p.dict p.fieldsSet now hnd hupdmem
    have hidnone : getField (setField p.dictExcludeUnset "updated_at"
        (JVal.time now)) "_id" = none :=
      getField_setField_filter_none p.dict p.fieldsSet now "_id" hupdmem hidmem
        (by decide)
    have hrun : update_paper decode req true st i body now =
        (.ok "Paper updated successfully",
          updateOne st i (setField p.dictExcludeUnset "updated_at" (.time now))) := by
      simp only [update_paper, hauth, hp, Bool.not_true, Bool.false_eq_true,
        if_false, hf]
    refine ⟨hrun, ?_, fr1, fr2, fr3, fr4 "created_at" hcrmem (by decide),
      fr4 "_id" hidmem (by decide), ?_, ?_⟩
    · rw [hrun]
      exact findOne_updateOne_self st i _ d hidnone hf
    · intro j hij
      rw [hrun]
      exact findOne_updateOne_other st i j _ hidnone hij
    · intro t0 ht0 hlt
      exact ⟨now, fr3, hlt⟩
  · intro p d hp hf
    have hdict : p.dict.map Prod.fst =
        ["title", "course_code", "branch", "year", "description", "modules",
          "tags"] := rfl
    have hnd : (p.dict.map Prod.fst).Nodup := by rw [hdict]; decide
    have hupdmem : "updated_at" ∉ p.dict.map Prod.fst := by rw [hdict]; decide
    have hidmem : "_id" ∉ p.dict.map Prod.fst := by rw [hdict]; decide
    have hcrmem : "created_at" ∉ p.dict.map Prod.fst := by rw [hdict]; decide
    obtain ⟨fr1, fr2, fr3, fr4⟩ :=
      setFields_update_frame d p.dict p.fieldsSet now hnd hupdmem
    have hidnone : getField (setField p.dictExcludeUnset "updated_at"
        (JVal.time now)) "_id" = none :=
      getField_setField_filter_none p.dict p.fieldsSet now "_id" hupdmem hidmem
        (by decide)
    have hrun : update_syllabus decode req true st i body now =
        (.ok "Syllabus updated successfully",
          updateOne st i (setField p.dictExcludeUnset "updated_at" (.time now))) := by
      simp only [update_syllabus, hauth, hp, Bool.not_true, Bool.false_eq_true,
        if_false, hf]
    refine ⟨hrun, ?_, fr1, fr2, fr3, fr4 "created_at" hcrmem (by decide),
      fr4 "_id" hidmem (by decide), ?_, ?_⟩
    · rw [hrun]
      exact findOne_updateOne_self st i _ d hidnone hf
    · intro j hij
      rw [hrun]
      exact findOne_updateOne_other st i j _ hidnone hij
    · intro t0 ht0 hlt
      exact ⟨now, fr3, hlt⟩

/-- Closed instantiation of C5: updating a concrete stored note sets
`updated_at` to the new clock value. -/
theorem C5_update_frame_witness :
    getField (setFields noteDoc0 (setField
      (NoteIn.dictExcludeUnset
        ⟨"Algebra", some "updated", none, some [], ["title", "description"]⟩)
      "updated_at" (JVal.time 9))) "updated_at" = some (JVal.time 9) :=
  ((C5_update_frame decode0 reqAdmin adminClaims rfl [noteDoc0] "n1" updBody0 9).1
    ⟨"Algebra", some "updated", none, some [], ["title", "description"]⟩
    noteDoc0 rfl rfl).2.2.2.2.1

/-! Search lemmas. -/

theorem filter_eq_nil_of_all_false (st : List Doc) (f : Doc → Bool)
    (h : ∀ d ∈ st, f d = false) : st.filter f = [] := by
  induction st with
  | nil => rfl
  | cons d st ih =>
    rw [List.filter_cons, h d (List.mem_cons_self d st)]
    simp only [Bool.false_eq_true, if_false]
    exact ih (fun e he => h e (List.mem_cons_of_mem d he))

theorem search_page_sound (st : List Doc) (f : Doc → Bool) (now : Nat)
    (a b : Nat) :
    ∀ r ∈ (((sortByCreatedDesc (st.filter f)).drop a).take b).map (renderDoc now),
      ∃ p, p ∈ st ∧ f p = true ∧ r = renderDoc now p := by
  intro r hr
  rw [List.mem_map] at hr
  obtain ⟨p, hp, rfl⟩ := hr
  have hpf : p ∈ st.filter f := mem_page p (st.filter f) a b hp
  rw [List.mem_filter] at hpf
  exact ⟨p, hpf.1, hpf.2, rfl⟩

theorem search_page_complete (st : List Doc) (f : Doc → Bool) (now : Nat)
    (b : Nat) (hlen : (st.filter f).length ≤ b) :
    ∀ d ∈ st, f d = true →
      renderDoc now d ∈
        (((sortByCreatedDesc (st.filter f)).drop 0).take b).map (renderDoc now) := by
  intro d hd hf
  have hmemf : d ∈ st.filter f := List.mem_filter.mpr ⟨hd, hf⟩
  have hmems : d ∈ sortByCreatedDesc (st.filter f) :=
    ((List.perm_insertionSort docGE _).mem_iff).mpr hmemf
  rw [List.drop_zero]
  have htake : (sortByCreatedDesc (st.filter f)).take b =
      sortByCreatedDesc (st.filter f) := by
    apply List.take_of_length_le
    have hl : (sortByCreatedDesc (st.filter f)).length = (st.filter f).length :=
      (List.perm_insertionSort docGE _).length_eq
    omega
  rw [htake]
  exact List.mem_map_of_mem _ hmems

/-- C6: for every resource, search returns exactly the records matching the
configured `$or` filter — case-insensitive substring on the text fields or
exact membership in the array fields: every returned record is the rendering
of a matching stored record, every matching record is returned when the page
is large enough, the reported total counts the filtered set, and a query
matching no record yields total 0 and empty data. -/
theorem C6_search_semantics (st : List Doc) (q : String) (skip limit : Int)
    (maxPage : Nat) (now : Nat) :
    (∀ resp, search_notes true st maxPage now q skip limit = .ok resp →
      resp.pagination.total = (st.filter (matchesNote q)).length ∧
      (∀ r ∈ resp.data, ∃ p, p ∈ st ∧ matchesNote q p = true ∧
        r = renderDoc now p) ∧
      (skip = 0 → ((st.filter (matchesNote q)).length : Int) ≤ limit →
        ∀ d ∈ st, matchesNote q d = true → renderDoc now d ∈ resp.data) ∧
      ((∀ d ∈ st, matchesNote q d = false) →
        resp.pagination.total = 0 ∧ resp.data = [])) ∧
    (∀ resp, search_papers true st maxPage now q skip limit = .ok resp →
      resp.pagination.total = (st.filter (matchesPaper q)).length ∧
      (∀ r ∈ resp.data, ∃ p, p ∈ st ∧ matchesPaper q p = true ∧
        r = renderDoc now p) ∧
      (skip = 0 → ((st.filter (matchesPaper q)).length : Int) ≤ limit →
        ∀ d ∈ st, matchesPaper q d = true → renderDoc now d ∈ resp.data) ∧
      ((∀ d ∈ st, matchesPaper q d = false) →
        resp.pagination.total = 0 ∧ resp.data = [])) ∧
    (∀ resp, search_syllabus true st maxPage now q skip limit = .ok resp →
      resp.pagination.total = (st.filter (matchesSyllabus q)).length ∧
      (∀ r ∈ resp.data, ∃ p, p ∈ st ∧ matchesSyllabus q p = true ∧
        r = renderDoc now p) ∧
      (skip = 0 → ((st.filter (matchesSyllabus q)).length : Int) ≤ limit →
        ∀ d ∈ st, matchesSyllabus q d = true → renderDoc now d ∈ resp.data) ∧
      ((∀ d ∈ st, matchesSyllabus q d = false) →
        resp.pagination.total = 0 ∧ resp.data = [])) := by
  refine ⟨?_, ?_, ?_⟩
  · intro resp h
    unfold search_notes at h
    split at h
    · simp at h
    · simp only [Bool.not_true, Bool.false_eq_true, if_false, Except.ok.injEq] at h
      subst h
      refine ⟨rfl, search_page_sound st (matchesNote q) now _ _, ?_, ?_⟩
      · intro hskip hlen d hd hf
        subst hskip
        have hlen' : (st.filter (matchesNote q)).length ≤ limit.toNat := by omega
        exact search_page_complete st (matchesNote q) now limit.toNat hlen' d hd hf
      · intro hall
        have hnil : st.filter (matchesNote q) = [] :=
          filter_eq_nil_of_all_false st _ hall
        constructor
        · simp [hnil]
        · show (((sortByCreatedDesc (st.filter (matchesNote q))).drop
            skip.toNat).take limit.toNat).map (renderDoc now) = []
          rw [hnil]
          simp [sortByCreatedDesc]
  · intro resp h
    unfold search_papers at h
    split at h
    · simp at h
    · simp only [Bool.not_true, Bool.false_eq_true, if_false, Except.ok.injEq] at h
      subst h
      refine ⟨rfl, search_page_sound st (matchesPaper q) now _ _, ?_, ?_⟩
      · intro hskip hlen d hd hf
        subst hskip
        have hlen' : (st.filter (matchesPaper q)).length ≤ limit.toNat := by omega
        exact search_page_complete st (matchesPaper q) now limit.toNat hlen' d hd hf
      · intro hall
        have hnil : st.filter (matchesPaper q) = [] :=
          filter_eq_nil_of_all_false st _ hall
        constructor
        · simp [hnil]
        · show (((sortByCreatedDesc (st.filter (matchesPaper q))).drop
            skip.toNat).take limit.toNat).map (renderDoc now) = []
          rw [hnil]
          simp [sortByCreatedDesc]
  · intro resp h
    unfold search_syllabus at h
    split at h
    · simp at h
    · simp only [Bool.not_true, Bool.false_eq_true, if_false, Except.ok.injEq] at h
      subst h
      refine ⟨rfl, search_page_sound st (matchesSyllabus q) now _ _, ?_, ?_⟩
      · intro hskip hlen d hd hf
        subst hskip
        have hlen' : (st.filter (matchesSyllabus q)).length ≤ limit.toNat := by omega
        exact search_page_complete st (matchesSyllabus q) now limit.toNat hlen' d hd hf
      · intro hall
        have hnil : st.filter (matchesSyllabus q) = [] :=
          filter_eq_nil_of_all_false st _ hall
        constructor
        · simp [hnil]
        · show (((sortByCreatedDesc (st.filter (matchesSyllabus q))).drop
            skip.toNat).take limit.toNat).map (renderDoc now) = []
          rw [hnil]
          simp [sortByCreatedDesc]

/-- Closed instantiation of C6: searching a one-note store for a
case-insensitive substring of its title returns that note. -/
theorem C6_search_semantics_witness :
    renderDoc 7 noteDoc0 ∈
      (SearchResp.mk "alg" [renderDoc 7 noteDoc0] ⟨1, 0, 10, 1⟩).data :=
  ((C6_search_semantics [noteDoc0] "alg" 0 10 50 7).1
    ⟨"alg", [renderDoc 7 noteDoc0], ⟨1, 0, 10, 1⟩⟩ rfl).2.2.1 rfl (by decide)
    noteDoc0 (by simp) rfl

theorem renderDoc_preserves (now : Nat) (d : Doc) (k : String)
    (h1 : ¬ k = "_id") (h2 : ¬ k = "id") (h3 : ¬ k = "created_at")
    (h4 : ¬ k = "updated_at") :
    getField (renderDoc now d) k = getField d k := by
  simp only [renderDoc]
  rw [getField_setField_other _ "updated_at" k _ (fun h => h4 h.symm),
    getField_setField_other _ "created_at" k _ (fun h => h3 h.symm),
    getField_setField_other _ "id" k _ (fun h => h2 h.symm),
    getField_removeField_other _ "_id" k (fun h => h1 h.symm)]

/-- C7: for every resource, create with a schema-valid payload inserts a
document whose identifier is the freshly generated one and whose
`created_at` equals `updated_at` equals the current time, returns the full
stored record including the identifier, and a subsequent get round-trips
every submitted field unchanged (identifier freshness — the code's
`uuid.uuid4()` — is a hypothesis on the generated id); a payload violating a
field bound (title absent, empty, or over 255 characters) fails validation
and inserts nothing. -/
theorem C7_create_semantics (decode : String → Option Claims) (req : Request)
    (c : Claims) (hauth : verify_admin decode req = .ok c)
    (st : List Doc) (body : Doc) (i : String) (now : Nat) :
    ((∀ p, parseNoteIn body = some p →
      create_note decode req true st body i now =
        (.ok ⟨"Note created successfully", ("id", JVal.str i) ::
            setFields p.dict [("_id", JVal.str i), ("created_at", JVal.time now),
              ("updated_at", JVal.time now)]⟩,
          st ++ [setFields p.dict [("_id", JVal.str i),
            ("created_at", JVal.time now), ("updated_at", JVal.time now)]]) ∧
      getField (setFields p.dict [("_id", JVal.str i), ("created_at", JVal.time now),
        ("updated_at", JVal.time now)]) "_id" = some (JVal.str i) ∧
      getField (setFields p.dict [("_id", JVal.str i), ("created_at", JVal.time now),
        ("updated_at", JVal.time now)]) "created_at" = some (JVal.time now) ∧
      getField (setFields p.dict [("_id", JVal.str i), ("created_at", JVal.time now),
        ("updated_at", JVal.time now)]) "updated_at" = some (JVal.time now) ∧
      (findOne st i = none → ∀ now2,
        get_note true (st ++ [setFields p.dict [("_id", JVal.str i),
            ("created_at", JVal.time now), ("updated_at", JVal.time now)]]) i now2 =
          .ok (renderDoc now2 (setFields p.dict [("_id", JVal.str i),
            ("created_at", JVal.time now), ("updated_at", JVal.time now)])) ∧
        getField (renderDoc now2 (setFields p.dict [("_id", JVal.str i),
          ("created_at", JVal.time now), ("updated_at", JVal.time now)]))
          "id" = some (JVal.str i) ∧
        getField (renderDoc now2 (setFields p.dict [("_id", JVal.str i),
          ("created_at", JVal.time now), ("updated_at", JVal.time now)]))
          "title" = some (JVal.str p.title) ∧
        getField (renderDoc now2 (setFields p.dict [("_id", JVal.str i),
          ("created_at", JVal.time now), ("updated_at", JVal.time now)]))
          "description" = some (optStrVal p.description) ∧
        getField (renderDoc now2 (setFields p.dict [("_id", JVal.str i),
          ("created_at", JVal.time now), ("updated_at", JVal.time now)]))
          "content" = some (optStrVal p.content) ∧
        getField (renderDoc now2 (setFields p.dict [("_id", JVal.str i),
          ("created_at", JVal.time now), ("updated_at", JVal.time now)]))
          "tags" = some (optArrVal p.tags) ∧
        getField (renderDoc now2 (setFields p.dict [("_id", JVal.str i),
          ("created_at", JVal.time now), ("updated_at", JVal.time now)]))
          "created_at" = some (JVal.str (isoformat now)) ∧
        getField (renderDoc now2 (setFields p.dict [("_id", JVal.str i),
          ("created_at", JVal.time now), ("updated_at", JVal.time now)]))
          "updated_at" = some (JVal.str (isoformat now)))) ∧
    (parseNoteIn body = none →
      create_note decode req true st body i now =
        (.error ⟨422, "body validation error"⟩, st)) ∧
    (∀ s, getField body "title" = some (JVal.str s) →
      (s.length = 0 ∨ 255 < s.length) → parseNoteIn body = none)) ∧
    ((∀ p, parsePaperIn body = some p →
      create_paper decode req true st body i now =
        (.ok ⟨"Paper created successfully", ("id", JVal.str i) ::
            setFields p.dict [("_id", JVal.str i), ("created_at", JVal.time now),
              ("updated_at", JVal.time now)]⟩,
          st ++ [setFields p.dict [("_id", JVal.str i),
            ("created_at", JVal.time now), ("updated_at", JVal.time now)]]) ∧
      getField (setFields p.dict [("_id", JVal.str i), ("created_at", JVal.time now),
        ("updated_at", JVal.time now)]) "_id" = some (JVal.str i) ∧
      getField (setFields p.dict [("_id", JVal.str i), ("created_at", JVal.time now),
        ("updated_at", JVal.time now)]) "created_at" = some (JVal.time now) ∧
      getField (setFields p.dict [("_id", JVal.str i), ("created_at", JVal.time now),
        ("updated_at", JVal.time now)]) "updated_at" = some (JVal.time now) ∧
      (findOne st i = none → ∀ now2,
        get_paper true (st ++ [setFields p.dict [("_id", JVal.str i),
            ("created_at", JVal.time now), ("updated_at", JVal.time now)]]) i now2 =
          .ok (renderDoc now2 (setFields p.dict [("_id", JVal.str i),
            ("created_at", JVal.time now), ("updated_at", JVal.time now)])) ∧
        getField (renderDoc now2 (setFields p.dict [("_id", JVal.str i),
          ("created_at", JVal.time now), ("updated_at", JVal.time now)]))
          "id" = some (JVal.str i) ∧
        getField (renderDoc now2 (setFields p.dict [("_id", JVal.str i),
          ("created_at", JVal.time now), ("updated_at", JVal.time now)]))
          "title" = some (JVal.str p.title) ∧
        getField (renderDoc now2 (setFields p.dict [("_id", JVal.str i),
          ("created_at", JVal.time now), ("updated_at", JVal.time now)]))
          "authors" = some (optArrVal p.authors) ∧
        getField (renderDoc now2 (setFields p.dict [("_id", JVal.str i),
          ("created_at", JVal.time now), ("updated_at", JVal.time now)]))
          "abstract" = some (optStrVal p.abstract) ∧
        getField (renderDoc now2 (setFields p.dict [("_id", JVal.str i),
          ("created_at", JVal.time now), ("updated_at", JVal.time now)]))
          "file_url" = some (optStrVal p.file_url) ∧
        getField (renderDoc now2 (setFields p.dict [("_id", JVal.str i),
          ("created_at", JVal.time now), ("updated_at", JVal.time now)]))
          "tags" = some (optArrVal p.tags) ∧
        getField (renderDoc now2 (setFields p.dict [("_id", JVal.str i),
          ("created_at", JVal.time now), ("updated_at", JVal.time now)]))
          "created_at" = some (JVal.str (isoformat now)) ∧
        getField (renderDoc now2 (setFields p.dict [("_id", JVal.str i),
          ("created_at", JVal.time now), ("updated_at", JVal.time now)]))
          "updated_at" = some (JVal.str (isoformat now)))) ∧
    (parsePaperIn body = none →
      create_paper decode req true st body i now =
        (.error ⟨422, "body validation error"⟩, st)) ∧
    (∀ s, getField body "title" = some (JVal.str s) →
      (s.length = 0 ∨ 255 < s.length) → parsePaperIn body = none)) ∧
    ((∀ p, parseSyllabusIn body = some p →
      create_syllabus decode req true st body i now =
        (.ok ⟨"Syllabus created successfully", ("id", JVal.str i) ::
            setFields p.dict [("_id", JVal.str i), ("created_at", JVal.time now),
              ("updated_at", JVal.time now)]⟩,
          st ++ [setFields p.dict [("_id", JVal.str i),
            ("created_at", JVal.time now), ("updated_at", JVal.time now)]]) ∧
      getField (setFields p.dict [("_id", JVal.str i), ("created_at", JVal.time now),
        ("updated_at", JVal.time now)]) "_id" = some (JVal.str i) ∧
      getField (setFields p.dict [("_id", JVal.str i), ("created_at", JVal.time now),
        ("updated_at", JVal.time now)]) "created_at" = some (JVal.time now) ∧
      getField (setFields p.dict [("_id", JVal.str i), ("created_at", JVal.time now),
        ("updated_at", JVal.time now)]) "updated_at" = some (JVal.time now) ∧
      (findOne st i = none → ∀ now2,
        get_one_syllabus true (st ++ [setFields p.dict [("_id", JVal.str i),
            ("created_at", JVal.time now), ("updated_at", JVal.time now)]]) i now2 =
          .ok (renderDoc now2 (setFields p.dict [("_id", JVal.str i),
            ("created_at", JVal.time now), ("updated_at", JVal.time now)])) ∧
        getField (renderDoc now2 (setFields p.dict [("_id", JVal.str i),
          ("created_at", JVal.time now), ("updated_at", JVal.time now)]))
          "id" = some (JVal.str i) ∧
        getField (renderDoc now2 (setFields p.dict [("_id", JVal.str i),
          ("created_at", JVal.time now), ("updated_at", JVal.time now)]))
          "title" = some (JVal.str p.title) ∧
        getField (renderDoc now2 (setFields p.dict [("_id", JVal.str i),
          ("created_at", JVal.time now), ("updated_at", JVal.time now)]))
          "course_code" = some (optStrVal p.course_code) ∧
        getField (renderDoc now2 (setFields p.dict [("_id", JVal.str i),
          ("created_at", JVal.time now), ("updated_at", JVal.time now)]))
          "branch" = some (optStrVal p.branch) ∧
        getField (renderDoc now2 (setFields p.dict [("_id", JVal.str i),
          ("created_at", JVal.time now), ("updated_at", JVal.time now)]))
          "year" = some (optStrVal p.year) ∧
        getField (renderDoc now2 (setFields p.dict [("_id", JVal.str i),
          ("created_at", JVal.time now), ("updated_at", JVal.time now)]))
          "description" = some (optStrVal p.description) ∧
        getField (renderDoc now2 (setFields p.dict [("_id", JVal.str i),
          ("created_at", JVal.time now), ("updated_at", JVal.time now)]))
          "modules" = some (optArrVal p.modules) ∧
        getField (renderDoc now2 (setFields p.dict [("_id", JVal.str i),
          ("created_at", JVal.time now), ("updated_at", JVal.time now)]))
          "tags" = some (optArrVal p.tags) ∧
        getField (renderDoc now2 (setFields p.dict [("_id", JVal.str i),
          ("created_at", JVal.time now), ("updated_at", JVal.time now)]))
          "created_at" = some (JVal.str (isoformat now)) ∧
        getField (renderDoc now2 (setFields p.dict [("_id", JVal.str i),
          ("created_at", JVal.time now), ("updated_at", JVal.time now)]))
          "updated_at" = some (JVal.str (isoformat now)))) ∧
    (parseSyllabusIn body = none →
      create_syllabus decode req true st body i now =
        (.error ⟨422, "body validation error"⟩, st)) ∧
    (∀ s, getField body "title" = some (JVal.str s) →
      (s.length = 0 ∨ 255 < s.length) → parseSyllabusIn body = none)) := by
  have hbadtitle : ∀ s, getField body "title" = some (JVal.str s) →
      (s.length = 0 ∨ 255 < s.length) →
      parseStrReq body "title" 1 255 = none := by
    intro s hts hbound
    unfold parseStrReq
    rw [hts]
    have hcond : (1 ≤ s.length && s.length ≤ 255) = false := by
      cases hbound with
      | inl h0 => simp [h0]
      | inr h0 =>
        simp only [Bool.and_eq_false_iff, decide_eq_false_iff_not, not_le]
        right
        omega
    show (if (decide (1 ≤ s.length) && decide (s.length ≤ 255)) = true
      then some s else none) = none
    rw [hcond]
    simp
  refine ⟨⟨?_, ?_, ?_⟩, ⟨?_, ?_, ?_⟩, ⟨?_, ?_, ?_⟩⟩
  · intro p hp
    have hid : getField (setFields p.dict [("_id", JVal.str i),
        ("created_at", JVal.time now), ("updated_at", JVal.time now)]) "_id" =
        some (JVal.str i) := by
      simp only [setFields]
      rw [getField_setField_other _ "updated_at" "_id" _ (by decide),
        getField_setField_other _ "created_at" "_id" _ (by decide),
        getField_setField_self]
    refine ⟨?_, hid, ?_, ?_, ?_⟩
    · simp only [create_note, hauth, hp, Bool.not_true, Bool.false_eq_true, if_false]
    · simp only [setFields]
      rw [getField_setField_other _ "updated_at" "created_at" _ (by decide),
        getField_setField_self]
    · simp only [setFields]
      rw [getField_setField_self]
    · intro hfresh now2
      have hget : get_note true (st ++ [setFields p.dict [("_id", JVal.str i),
          ("created_at", JVal.time now), ("updated_at", JVal.time now)]]) i now2 =
          .ok (renderDoc now2 (setFields p.dict [("_id", JVal.str i),
            ("created_at", JVal.time now), ("updated_at", JVal.time now)])) := by
        unfold get_note
        rw [findOne_append_of_none st i _ hfresh hid]
        simp
      obtain ⟨hr1, hr2, hr3, hr4⟩ := renderDoc_fields now2 _ i hid
      refine ⟨hget, hr2, ?_, ?_, ?_, ?_, ?_, ?_⟩
      · rw [renderDoc_preserves now2 _ "title" (by decide) (by decide) (by decide)
          (by decide)]
        simp only [setFields]
        rw [getField_setField_other _ "updated_at" "title" _ (by decide),
          getField_setField_other _ "created_at" "title" _ (by decide),
          getField_setField_other _ "_id" "title" _ (by decide)]
        rfl
      · rw [renderDoc_preserves now2 _ "description" (by decide) (by decide)
          (by decide) (by decide)]
        simp only [setFields]
        rw [getField_setField_other _ "updated_at" "description" _ (by decide),
          getField_setField_other _ "created_at" "description" _ (by decide),
          getField_setField_other _ "_id" "description" _ (by decide)]
        rfl
      · rw [renderDoc_preserves now2 _ "content" (by decide) (by decide) (by decide)
          (by decide)]
        simp only [setFields]
        rw [getField_setField_other _ "updated_at" "content" _ (by decide),
          getField_setField_other _ "created_at" "content" _ (by decide),
          getField_setField_other _ "_id" "content" _ (by decide)]
        rfl
      · rw [renderDoc_preserves now2 _ "tags" (by decide) (by decide) (by decide)
          (by decide)]
        simp only [setFields]
        rw [getField_setField_other _ "updated_at" "tags" _ (by decide),
          getField_setField_other _ "created_at" "tags" _ (by decide),
          getField_setField_other _ "_id" "tags" _ (by decide)]
        rfl
      · rw [hr3]
        simp only [setFields]
        rw [getField_setField_other _ "updated_at" "created_at" _ (by decide),
          getField_setField_self]
        rfl
      · rw [hr4]
        simp only [setFields]
        rw [getField_setField_self]
        rfl
  · intro hbad
    simp only [create_note, hauth, hbad, Bool.not_true, Bool.false_eq_true, if_false]
  · intro s hts hbound
    unfold parseNoteIn
    rw [hbadtitle s hts hbound]
  · intro p hp
    have hid : getField (setFields p.dict [("_id", JVal.str i),
        ("created_at", JVal.time now), ("updated_at", JVal.time now)]) "_id" =
        some (JVal.str i) := by
      simp only [setFields]
      rw [getField_setField_other _ "updated_at" "_id" _ (by decide),
        getField_setField_other _ "created_at" "_id" _ (by decide),
        getField_setField_self]
    refine ⟨?_, hid, ?_, ?_, ?_⟩
    · simp only [create_paper, hauth, hp, Bool.not_true, Bool.false_eq_true, if_false]
    · simp only [setFields]
      rw [getField_setField_other _ "updated_at" "created_at" _ (by decide),
        getField_setField_self]
    · simp only [setFields]
      rw [getField_setField_self]
    · intro hfresh now2
      have hget : get_paper true (st ++ [setFields p.dict [("_id", JVal.str i),
          ("created_at", JVal.time now), ("updated_at", JVal.time now)]]) i now2 =
          .ok (renderDoc now2 (setFields p.dict [("_id", JVal.str i),
            ("created_at", JVal.time now), ("updated_at", JVal.time now)])) := by
        unfold get_paper
        rw [findOne_append_of_none st i _ hfresh hid]
        simp
      obtain ⟨hr1, hr2, hr3, hr4⟩ := renderDoc_fields now2 _ i hid
      refine ⟨hget, hr2, ?_, ?_, ?_, ?_, ?_, ?_, ?_⟩
      · rw [renderDoc_preserves now2 _ "title" (by decide) (by decide) (by decide)
          (by decide)]
        simp only [setFields]
        rw [getField_setField_other _ "updated_at" "title" _ (by decide),
          getField_setField_other _ "created_at" "title" _ (by decide),
          getField_setField_other _ "_id" "title" _ (by decide)]
        rfl
      · rw [renderDoc_preserves now2 _ "authors" (by decide) (by decide) (by decide)
          (by decide)]
        simp only [setFields]
        rw [getField_setField_other _ "updated_at" "authors" _ (by decide),
          getField_setField_other _ "created_at" "authors" _ (by decide),
          getField_setField_other _ "_id" "authors" _ (by decide)]
        rfl
      · rw [renderDoc_preserves now2 _ "abstract" (by decide) (by decide) (by decide)
          (by decide)]
        simp only [setFields]
        rw [getField_setField_other _ "updated_at" "abstract" _ (by decide),
          getField_setField_other _ "created_at" "abstract" _ (by decide),
          getField_setField_other _ "_id" "abstract" _ (by decide)]
        rfl
      · rw [renderDoc_preserves now2 _ "file_url" (by decide) (by decide) (by decide)
          (by decide)]
        simp only [setFields]
        rw [getField_setField_other _ "updated_at" "file_url" _ (by decide),
          getField_setField_other _ "created_at" "file_url" _ (by decide),
          getField_setField_other _ "_id" "file_url" _ (by decide)]
        rfl
      · rw [renderDoc_preserves now2 _ "tags" (by decide) (by decide) (by decide)
          (by decide)]
        simp only [setFields]
        rw [getField_setField_other _ "updated_at" "tags" _ (by decide),
          getField_setField_other _ "created_at" "tags" _ (by decide),
          getField_setField_other _ "_id" "tags" _ (by decide)]
        rfl
      · rw [hr3]
        simp only [setFields]
        rw [getField_setField_other _ "updated_at" "created_at" _ (by decide),
          getField_setField_self]
        rfl
      · rw [hr4]
        simp only [setFields]
        rw [getField_setField_self]
        rfl
  · intro hbad
    simp only [create_paper, hauth, hbad, Bool.not_true, Bool.false_eq_true, if_false]
  · intro s hts hbound
    unfold parsePaperIn
    rw [hbadtitle s hts hbound]
  · intro p hp
    have hid : getField (setFields p.dict [("_id", JVal.str i),
        ("created_at", JVal.time now), ("updated_at", JVal.time now)]) "_id" =
        some (JVal.str i) := by
      simp only [setFields]
      rw [getField_setField_other _ "updated_at" "_id" _ (by decide),
        getField_setField_other _ "created_at" "_id" _ (by decide),
        getField_setField_self]
    refine ⟨?_, hid, ?_, ?_, ?_⟩
    · simp only [create_syllabus, hauth, hp, Bool.not_true, Bool.false_eq_true,
        if_false]
    · simp only [setFields]
      rw [getField_setField_other _ "updated_at" "created_at" _ (by decide),
        getField_setField_self]
    · simp only [setFields]
      rw [getField_setField_self]
    · intro hfresh now2
      have hget : get_one_syllabus true (st ++ [setFields p.dict
          [("_id", JVal.str i), ("created_at", JVal.time now),
            ("updated_at", JVal.time now)]]) i now2 =
          .ok (renderDoc now2 (setFields p.dict [("_id", JVal.str i),
            ("created_at", JVal.time now), ("updated_at", JVal.time now)])) := by
        unfold get_one_syllabus
        rw [findOne_append_of_none st i _ hfresh hid]
        simp
      obtain ⟨hr1, hr2, hr3, hr4⟩ := renderDoc_fields now2 _ i hid
      refine ⟨hget, hr2, ?_, ?_, ?_, ?_, ?_, ?_, ?_, ?_, ?_⟩
      · rw [renderDoc_preserves now2 _ "title" (by decide) (by decide) (by decide)
          (by decide)]
        simp only [setFields]
        rw [getField_setField_other _ "updated_at" "title" _ (by decide),
          getField_setField_other _ "created_at" "title" _ (by decide),
          getField_setField_other _ "_id" "title" _ (by decide)]
        rfl
      · rw [renderDoc_preserves now2 _ "course_code" (by decide) (by decide)
          (by decide) (by decide)]
        simp only [setFields]
        rw [getField_setField_other _ "updated_at" "course_code" _ (by decide),
          getField_setField_other _ "created_at" "course_code" _ (by decide),
          getField_setField_other _ "_id" "course_code" _ (by decide)]
        rfl
      · rw [renderDoc_preserves now2 _ "branch" (by decide) (by decide) (by decide)
          (by decide)]
        simp only [setFields]
        rw [getField_setField_other _ "updated_at" "branch" _ (by decide),
          getField_setField_other _ "created_at" "branch" _ (by decide),
          getField_setField_other _ "_id" "branch" _ (by decide)]
        rfl
      · rw [renderDoc_preserves now2 _ "year" (by decide) (by decide) (by decide)
          (by decide)]
        simp only [setFields]
        rw [getField_setField_other _ "updated_at" "year" _ (by decide),
          getField_setField_other _ "created_at" "year" _ (by decide),
          getField_setField_other _ "_id" "year" _ (by decide)]
        rfl
      · rw [renderDoc_preserves now2 _ "description" (by decide) (by decide)
          (by decide) (by decide)]
        simp only [setFields]
        rw [getField_setField_other _ "updated_at" "description" _ (by decide),
          getField_setField_other _ "created_at" "description" _ (by decide),
          getField_setField_other _ "_id" "description" _ (by decide)]
        rfl
      · rw [renderDoc_preserves now2 _ "modules" (by decide) (by decide) (by decide)
          (by decide)]
        simp only [setFields]
        rw [getField_setField_other _ "updated_at" "modules" _ (by decide),
          getField_setField_other _ "created_at" "modules" _ (by decide),
          getField_setField_other _ "_id" "modules" _ (by decide)]
        rfl
      · rw [renderDoc_preserves now2 _ "tags" (by decide) (by decide) (by decide)
          (by decide)]
        simp only [setFields]
        rw [getField_setField_other _ "updated_at" "tags" _ (by decide),
          getField_setField_other _ "created_at" "tags" _ (by decide),
          getField_setField_other _ "_id" "tags" _ (by decide)]
        rfl
      · rw [hr3]
        simp only [setFields]
        rw [getField_setField_other _ "updated_at" "created_at" _ (by decide),
          getField_setField_self]
        rfl
      · rw [hr4]
        simp only [setFields]
        rw [getField_setField_self]
        rfl
  · intro hbad
    simp only [create_syllabus, hauth, hbad, Bool.not_true, Bool.false_eq_true,
      if_false]
  · intro s hts hbound
    unfold parseSyllabusIn
    rw [hbadtitle s hts hbound]

/-- Closed instantiation of C7: creating a concrete note and reading it back
round-trips the submitted title. -/
theorem C7_create_semantics_witness :
    getField (renderDoc 6 noteDoc0) "title" = some (JVal.str "Algebra") :=
  ((((C7_create_semantics decode0 reqAdmin adminClaims rfl [] noteBody0 "n1"
      5).1.1 ⟨"Algebra", none, none, some [], ["title"]⟩ rfl).2.2.2.2
    rfl 6).2.2.1)

/-- C8: for every resource, deleting an absent id fails with 404 leaving the
collection unchanged (zero documents removed), and after a successful
delete — under the store's unique `_id` index — a subsequent get and a
subsequent delete of the same id both fail with 404. -/
theorem C8_delete_semantics (decode : String → Option Claims) (req : Request)
    (c : Claims) (hauth : verify_admin decode req = .ok c)
    (st : List Doc) (i : String) :
    ((findOne st i = none →
      delete_note decode req true st i = (.error ⟨404, "Note not found"⟩, st)) ∧
    (∀ d, idCount st i ≤ 1 → findOne st i = some d →
      delete_note decode req true st i =
        (.ok "Note deleted successfully", (deleteOne st i).1) ∧
      (∀ now, get_note true (deleteOne st i).1 i now =
        .error ⟨404, "Note not found"⟩) ∧
      delete_note decode req true (deleteOne st i).1 i =
        (.error ⟨404, "Note not found"⟩, (deleteOne st i).1))) ∧
    ((findOne st i = none →
      delete_paper decode req true st i = (.error ⟨404, "Paper not found"⟩, st)) ∧
    (∀ d, idCount st i ≤ 1 → findOne st i = some d →
      delete_paper decode req true st i =
        (.ok "Paper deleted successfully", (deleteOne st i).1) ∧
      (∀ now, get_paper true (deleteOne st i).1 i now =
        .error ⟨404, "Paper not found"⟩) ∧
      delete_paper decode req true (deleteOne st i).1 i =
        (.error ⟨404, "Paper not found"⟩, (deleteOne st i).1))) ∧
    ((findOne st i = none →
      delete_syllabus decode req true st i =
        (.error ⟨404, "Syllabus not found"⟩, st)) ∧
    (∀ d, idCount st i ≤ 1 → findOne st i = some d →
      delete_syllabus decode req true st i =
        (.ok "Syllabus deleted successfully", (deleteOne st i).1) ∧
      (∀ now, get_one_syllabus true (deleteOne st i).1 i now =
        .error ⟨404, "Syllabus not found"⟩) ∧
      delete_syllabus decode req true (deleteOne st i).1 i =
        (.error ⟨404, "Syllabus not found"⟩, (deleteOne st i).1))) := by
  refine ⟨⟨?_, ?_⟩, ⟨?_, ?_⟩, ⟨?_, ?_⟩⟩
  · intro h
    have hd0 := deleteOne_of_findOne_none st i h
    simp [delete_note, hauth, hd0]
  · intro d hu hf
    have hcount := deleteOne_count_of_findOne_some st i d hf
    have hnone := findOne_deleteOne_of_unique st i d hu hf
    have hd0 := deleteOne_of_findOne_none (deleteOne st i).1 i hnone
    refine ⟨?_, ?_, ?_⟩
    · simp [delete_note, hauth, hcount]
    · intro now
      simp [get_note, hnone]
    · simp [delete_note, hauth, hd0]
  · intro h
    have hd0 := deleteOne_of_findOne_none st i h
    simp [delete_paper, hauth, hd0]
  · intro d hu hf
    have hcount := deleteOne_count_of_findOne_some st i d hf
    have hnone := findOne_deleteOne_of_unique st i d hu hf
    have hd0 := deleteOne_of_findOne_none (deleteOne st i).1 i hnone
    refine ⟨?_, ?_, ?_⟩
    · simp [delete_paper, hauth, hcount]
    · intro now
      simp [get_paper, hnone]
    · simp [delete_paper, hauth, hd0]
  · intro h
    have hd0 := deleteOne_of_findOne_none st i h
    simp [delete_syllabus, hauth, hd0]
  · intro d hu hf
    have hcount := deleteOne_count_of_findOne_some st i d hf
    have hnone := findOne_deleteOne_of_unique st i d hu hf
    have hd0 := deleteOne_of_findOne_none (deleteOne st i).1 i hnone
    refine ⟨?_, ?_, ?_⟩
    · simp [delete_syllabus, hauth, hcount]
    · intro now
      simp [get_one_syllabus, hnone]
    · simp [delete_syllabus, hauth, hd0]

/-- Closed instantiation of C8: after deleting the only note, reading it
back fails with 404. -/
theorem C8_delete_semantics_witness :
    get_note true (deleteOne [noteDoc0] "n1").1 "n1" 3 =
      .error ⟨404, "Note not found"⟩ :=
  (((C8_delete_semantics decode0 reqAdmin adminClaims rfl [noteDoc0] "n1").1.2
    noteDoc0 (by decide) rfl).2.1) 3

/-- C9: for every resource, a list call with valid pagination returns the
total over the full unfiltered collection, a page sorted by `created_at`
descending whose `returned` echo equals the page length and is at most both
`limit` and `total`; `skip < 0` or `limit` outside `[1, MAX_PAGE_SIZE]`
fails with the validation error, and an unset store handle fails with
status 500. -/
theorem C9_list_semantics (st : List Doc) (maxPage : Nat) (now : Nat)
    (skip limit : Int) :
    ((∀ resp, get_notes true st maxPage now skip limit = .ok resp →
      resp.pagination.total = st.length ∧
      resp.pagination.returned = resp.data.length ∧
      (resp.data.length : Int) ≤ limit ∧
      resp.data.length ≤ st.length ∧
      (∃ page, List.Pairwise docGE page ∧ resp.data = page.map (renderDoc now))) ∧
    ((skip < 0 ∨ limit < 1 ∨ (maxPage : Int) < limit) →
      get_notes true st maxPage now skip limit =
        .error ⟨422, "query validation error"⟩) ∧
    (0 ≤ skip → 1 ≤ limit → limit ≤ (maxPage : Int) →
      get_notes false st maxPage now skip limit =
        .error ⟨500, "Database not connected"⟩)) ∧
    ((∀ resp, get_papers true st maxPage now skip limit = .ok resp →
      resp.pagination.total = st.length ∧
      resp.pagination.returned = resp.data.length ∧
      (resp.data.length : Int) ≤ limit ∧
      resp.data.length ≤ st.length ∧
      (∃ page, List.Pairwise docGE page ∧ resp.data = page.map (renderDoc now))) ∧
    ((skip < 0 ∨ limit < 1 ∨ (maxPage : Int) < limit) →
      get_papers true st maxPage now skip limit =
        .error ⟨422, "query validation error"⟩) ∧
    (0 ≤ skip → 1 ≤ limit → limit ≤ (maxPage : Int) →
      get_papers false st maxPage now skip limit =
        .error ⟨500, "Database not connected"⟩)) ∧
    ((∀ resp, get_syllabus true st maxPage now skip limit = .ok resp →
      resp.pagination.total = st.length ∧
      resp.pagination.returned = resp.data.length ∧
      (resp.data.length : Int) ≤ limit ∧
      resp.data.length ≤ st.length ∧
      (∃ page, List.Pairwise docGE page ∧ resp.data = page.map (renderDoc now))) ∧
    ((skip < 0 ∨ limit < 1 ∨ (maxPage : Int) < limit) →
      get_syllabus true st maxPage now skip limit =
        .error ⟨422, "query validation error"⟩) ∧
    (0 ≤ skip → 1 ≤ limit → limit ≤ (maxPage : Int) →
      get_syllabus false st maxPage now skip limit =
        .error ⟨500, "Database not connected"⟩)) := by
  refine ⟨⟨?_, ?_, ?_⟩, ⟨?_, ?_, ?_⟩, ⟨?_, ?_, ?_⟩⟩
  · intro resp h
    unfold get_notes at h
    split at h
    · simp at h
    · rename_i hg
      simp only [Bool.not_true, Bool.false_eq_true, if_false, Except.ok.injEq] at h
      subst h
      simp at hg
      refine ⟨rfl, rfl, ?_, ?_, ?_⟩
      · have h1 : (((sortByCreatedDesc st).drop skip.toNat).take limit.toNat).length ≤
            limit.toNat := page_length_le_limit st skip.toNat limit.toNat
        simp only [List.length_map]
        omega
      · simp only [List.length_map]
        exact page_length_le_total st _ _
      · exact ⟨_, page_sorted st _ _, rfl⟩
  · intro hbad
    unfold get_notes
    split
    · rfl
    · rename_i hg
      exfalso
      simp at hg
      rcases hbad with h | h | h <;> omega
  · intro h1 h2 h3
    unfold get_notes
    split
    · rename_i hg
      exfalso
      simp at hg
      rcases hg with (h | h) | h <;> omega
    · simp
  · intro resp h
    unfold get_papers at h
    split at h
    · simp at h
    · rename_i hg
      simp only [Bool.not_true, Bool.false_eq_true, if_false, Except.ok.injEq] at h
      subst h
      simp at hg
      refine ⟨rfl, rfl, ?_, ?_, ?_⟩
      · have h1 : (((sortByCreatedDesc st).drop skip.toNat).take limit.toNat).length ≤
            limit.toNat := page_length_le_limit st skip.toNat limit.toNat
        simp only [List.length_map]
        omega
      · simp only [List.length_map]
        exact page_length_le_total st _ _
      · exact ⟨_, page_sorted st _ _, rfl⟩
  · intro hbad
    unfold get_papers
    split
    · rfl
    · rename_i hg
      exfalso
      simp at hg
      rcases hbad with h | h | h <;> omega
  · intro h1 h2 h3
    unfold get_papers
    split
    · rename_i hg
      exfalso
      simp at hg
      rcases hg with (h | h) | h <;> omega
    · simp
  · intro resp h
    unfold get_syllabus at h
    split at h
    · simp at h
    · rename_i hg
      simp only [Bool.not_true, Bool.false_eq_true, if_false, Except.ok.injEq] at h
      subst h
      simp at hg
      refine ⟨rfl, rfl, ?_, ?_, ?_⟩
      · have h1 : (((sortByCreatedDesc st).drop skip.toNat).take limit.toNat).length ≤
            limit.toNat := page_length_le_limit st skip.toNat limit.toNat
        simp only [List.length_map]
        omega
      · simp only [List.length_map]
        exact page_length_le_total st _ _
      · exact ⟨_, page_sorted st _ _, rfl⟩
  · intro hbad
    unfold get_syllabus
    split
    · rfl
    · rename_i hg
      exfalso
      simp at hg
      rcases hbad with h | h | h <;> omega
  · intro h1 h2 h3
    unfold get_syllabus
    split
    · rename_i hg
      exfalso
      simp at hg
      rcases hg with (h | h) | h <;> omega
    · simp

/-- Closed instantiation of C9: listing a one-note store reports the full
collection count. -/
theorem C9_list_semantics_witness :
    (ListResp.mk [renderDoc 7 noteDoc0] ⟨1, 0, 10, 1⟩).pagination.total =
      [noteDoc0].length :=
  (((C9_list_semantics [noteDoc0] 50 7 0 10).1.1
    ⟨[renderDoc 7 noteDoc0], ⟨1, 0, 10, 1⟩⟩ rfl).1)

theorem parseStrReq_title_bad (body : Doc)
    (hbad : getField body "title" = none ∨
      getField body "title" = some (JVal.str "") ∨
      (∃ s, getField body "title" = some (JVal.str s) ∧ 255 < s.length)) :
    parseStrReq body "title" 1 255 = none := by
  rcases hbad with h | h | ⟨s, h, hs⟩
  · unfold parseStrReq
    rw [h]
  · unfold parseStrReq
    rw [h]
    rfl
  · unfold parseStrReq
    rw [h]
    show (if (decide (1 ≤ s.length) && decide (s.length ≤ 255)) = true
      then some s else none) = none
    have hcond : (decide (1 ≤ s.length) && decide (s.length ≤ 255)) = false := by
      simp only [Bool.and_eq_false_iff, decide_eq_false_iff_not, not_le]
      right
      omega
    rw [hcond]
    simp

/-- C10: every resource's update endpoint validates its body against the
full creation schema, not a partial one — a body with the required title
absent, empty, or over 255 characters is rejected with a validation error
before the handler body runs, leaving the collection unchanged, so no
partial update can leave the title unspecified. -/
theorem C10_update_validates_full_schema (decode : String → Option Claims)
    (req : Request) (c : Claims) (hauth : verify_admin decode req = .ok c)
    (st : List Doc) (i : String) (body : Doc) (now : Nat)
    (hbad : getField body "title" = none ∨
      getField body "title" = some (JVal.str "") ∨
      (∃ s, getField body "title" = some (JVal.str s) ∧ 255 < s.length)) :
    parseNoteIn body = none ∧
    parsePaperIn body = none ∧
    parseSyllabusIn body = none ∧
    update_note decode req true st i body now =
      (.error ⟨422, "body validation error"⟩, st) ∧
    update_paper decode req true st i body now =
      (.error ⟨422, "body validation error"⟩, st) ∧
    update_syllabus decode req true st i body now =
      (.error ⟨422, "body validation error"⟩, st) := by
  have hreq := parseStrReq_title_bad body hbad
  have hn : parseNoteIn body = none := by
    unfold parseNoteIn
    rw [hreq]
  have hp : parsePaperIn body = none := by
    unfold parsePaperIn
    rw [hreq]
  have hs : parseSyllabusIn body = none := by
    unfold parseSyllabusIn
    rw [hreq]
  refine ⟨hn, hp, hs, ?_, ?_, ?_⟩
  · simp [update_note, hauth, hn]
  · simp [update_paper, hauth, hp]
  · simp [update_syllabus, hauth, hs]

/-- Closed instantiation of C10: an update body with no title is rejected
with the validation error and the store is unchanged. -/
theorem C10_update_validates_full_schema_witness :
    update_note decode0 reqAdmin true [noteDoc0] "n1"
      [("description", JVal.str "x")] 9 =
      (.error ⟨422, "body validation error"⟩, [noteDoc0]) :=
  (C10_update_validates_full_schema decode0 reqAdmin adminClaims rfl [noteDoc0]
    "n1" [("description", JVal.str "x")] 9 (Or.inl rfl)).2.2.2.1
